import Mathlib

/-!
Verification development for the FTMS (Fitness Machine Service) Bluetooth
client of the gym-tracker repository (`src/lib/bluetooth.js`).

The development shallowly embeds:

* the three binary telemetry decoders (`parseIndoorBikeData`,
  `parseRowingMachineData`, `parseHRMeasurement`) as pure functions over
  byte buffers, with `Option` failure modelling the `RangeError` a JS
  `DataView` throws on an out-of-bounds read;
* the per-session connection state machine of `_connectWithDevice`
  (debounced disconnect handling, silent-reconnect cycles, caller
  `disconnect()`), as a transition system over explicit session state,
  with one transition per event-loop turn;
* the connect-phase retry loop and the `reconnectToMachine` facade.

Numbers: JS numbers are modelled as `Nat` / `Int` / `ℚ` (the only fractional
arithmetic in the source is `* 0.5` on values below 2^16, which is exact in
IEEE doubles, so `ℚ` is a faithful model).
-/

/-! ## Byte-buffer primitives

A `DataView` over an `ArrayBuffer` is modelled as a `List Nat` whose cells
are octets (`% 256` enforces the octet range of a real byte buffer).
A read past the end of the buffer throws `RangeError` in JS; here it
returns `none`. -/

/-- `DataView.getUint8(i)`. -/
def getUint8 (b : List Nat) (i : Nat) : Option Nat :=
  (b.get? i).map (fun v => v % 256)

/-- `DataView.getUint16(i, true)` — unsigned 16-bit little-endian. -/
def getUint16le (b : List Nat) (i : Nat) : Option Nat := do
  let lo ← getUint8 b i
  let hi ← getUint8 b (i + 1)
  pure (lo + 256 * hi)

/-- `DataView.getInt16(i, true)` — signed 16-bit little-endian. -/
def getInt16le (b : List Nat) (i : Nat) : Option Int := do
  let u ← getUint16le b i
  pure (if u < 32768 then (u : Int) else (u : Int) - 65536)

/-! ## Indoor Bike Data (0x2AD2) decoder — `parseIndoorBikeData`

The source walks the flag bits in a fixed order, mutating a result record
and an offset cursor.  Each `if`-block of the source function is embedded
as one step function below; `parseIndoorBikeDataAux` chains them in the
source's order and also returns the final cursor value.  Fields whose
flag is set but which are not surfaced only advance the cursor (the
source performs no read for them, so no bounds check happens). -/

/-- The result object literal of `parseIndoorBikeData`. -/
structure BikeData where
  watts : Option Int
  cadence : Option ℚ
  distance : Option Nat
  calories : Option Nat
  elapsedTime : Option Nat
deriving Repr, DecidableEq

/-- `if ((flags & 0x0001) === 0) offset += 2;  // Instantaneous Speed` -/
def bikeSpeedStep (flags offset : Nat) : Nat :=
  if flags &&& 0x0001 = 0 then offset + 2 else offset

/-- `if (flags & 0x0002) offset += 2;  // Average Speed` -/
def bikeAvgSpeedStep (flags offset : Nat) : Nat :=
  if flags &&& 0x0002 ≠ 0 then offset + 2 else offset

/-- `if (flags & 0x0004) { result.cadence = dataView.getUint16(offset, true) * 0.5; offset += 2; }` -/
def bikeCadenceStep (b : List Nat) (flags : Nat) (s : BikeData × Nat) :
    Option (BikeData × Nat) :=
  if flags &&& 0x0004 ≠ 0 then do
    let u ← getUint16le b s.2
    pure ({ s.1 with cadence := some ((u : ℚ) * 0.5) }, s.2 + 2)
  else pure s

/-- `if (flags & 0x0008) offset += 2;  // Average Cadence` -/
def bikeAvgCadenceStep (flags offset : Nat) : Nat :=
  if flags &&& 0x0008 ≠ 0 then offset + 2 else offset

/-- `if (flags & 0x0010) { result.distance = u8 | u8<<8 | u8<<16; offset += 3; }` -/
def bikeDistanceStep (b : List Nat) (flags : Nat) (s : BikeData × Nat) :
    Option (BikeData × Nat) :=
  if flags &&& 0x0010 ≠ 0 then do
    let d0 ← getUint8 b s.2
    let d1 ← getUint8 b (s.2 + 1)
    let d2 ← getUint8 b (s.2 + 2)
    pure ({ s.1 with distance := some (d0 ||| (d1 <<< 8) ||| (d2 <<< 16)) }, s.2 + 3)
  else pure s

/-- `if (flags & 0x0020) offset += 2;  // Resistance Level` -/
def bikeResistanceStep (flags offset : Nat) : Nat :=
  if flags &&& 0x0020 ≠ 0 then offset + 2 else offset

/-- `if (flags & 0x0040) { result.watts = dataView.getInt16(offset, true); offset += 2; }` -/
def bikePowerStep (b : List Nat) (flags : Nat) (s : BikeData × Nat) :
    Option (BikeData × Nat) :=
  if flags &&& 0x0040 ≠ 0 then do
    let w ← getInt16le b s.2
    pure ({ s.1 with watts := some w }, s.2 + 2)
  else pure s

/-- `if (flags & 0x0080) offset += 2;  // Average Power` -/
def bikeAvgPowerStep (flags offset : Nat) : Nat :=
  if flags &&& 0x0080 ≠ 0 then offset + 2 else offset

/-- `if (flags & 0x0100) { result.calories = dataView.getUint16(offset, true); offset += 5; }` -/
def bikeEnergyStep (b : List Nat) (flags : Nat) (s : BikeData × Nat) :
    Option (BikeData × Nat) :=
  if flags &&& 0x0100 ≠ 0 then do
    let c ← getUint16le b s.2
    pure ({ s.1 with calories := some c }, s.2 + 5)
  else pure s

/-- `if (flags & 0x0200) offset += 1;  // Heart Rate` -/
def bikeHeartRateStep (flags offset : Nat) : Nat :=
  if flags &&& 0x0200 ≠ 0 then offset + 1 else offset

/-- `if (flags & 0x0400) offset += 1;  // Metabolic Equivalent` -/
def bikeMetStep (flags offset : Nat) : Nat :=
  if flags &&& 0x0400 ≠ 0 then offset + 1 else offset

/-- `if (flags & 0x0800) { result.elapsedTime = dataView.getUint16(offset, true); offset += 2; }` -/
def bikeElapsedStep (b : List Nat) (flags : Nat) (s : BikeData × Nat) :
    Option (BikeData × Nat) :=
  if flags &&& 0x0800 ≠ 0 then do
    let t ← getUint16le b s.2
    pure ({ s.1 with elapsedTime := some t }, s.2 + 2)
  else pure s

/-- `parseIndoorBikeData`, also exposing the final cursor value. -/
def parseIndoorBikeDataAux (b : List Nat) : Option (BikeData × Nat) := do
  let flags ← getUint16le b 0
  let s : BikeData × Nat := (⟨none, none, none, none, none⟩, 2)
  let s := (s.1, bikeSpeedStep flags s.2)
  let s := (s.1, bikeAvgSpeedStep flags s.2)
  let s ← bikeCadenceStep b flags s
  let s := (s.1, bikeAvgCadenceStep flags s.2)
  let s ← bikeDistanceStep b flags s
  let s := (s.1, bikeResistanceStep flags s.2)
  let s ← bikePowerStep b flags s
  let s := (s.1, bikeAvgPowerStep flags s.2)
  let s ← bikeEnergyStep b flags s
  let s := (s.1, bikeHeartRateStep flags s.2)
  let s := (s.1, bikeMetStep flags s.2)
  let s ← bikeElapsedStep b flags s
  pure s

/-- `parseIndoorBikeData` as the source returns it (result object only). -/
def parseIndoorBikeData (b : List Nat) : Option BikeData :=
  (parseIndoorBikeDataAux b).map Prod.fst

/-! ## Rowing Machine Data (0x2AD1) decoder — `parseRowingMachineData` -/

/-- The result object literal of `parseRowingMachineData`. -/
structure RowingData where
  watts : Option Int
  strokeRate : Option ℚ
  distance : Option Nat
  calories : Option Nat
  elapsedTime : Option Nat
deriving Repr, DecidableEq

/-- `if ((flags & 0x0001) === 0) { result.strokeRate = dataView.getUint8(offset) * 0.5; offset += 3; }` -/
def rowStrokeStep (b : List Nat) (flags : Nat) (s : RowingData × Nat) :
    Option (RowingData × Nat) :=
  if flags &&& 0x0001 = 0 then do
    let u ← getUint8 b s.2
    pure ({ s.1 with strokeRate := some ((u : ℚ) * 0.5) }, s.2 + 3)
  else pure s

/-- `if (flags & 0x0002) offset += 1;  // Average Stroke Rate` -/
def rowAvgStrokeStep (flags offset : Nat) : Nat :=
  if flags &&& 0x0002 ≠ 0 then offset + 1 else offset

/-- `if (flags & 0x0004) { result.distance = u8 | u8<<8 | u8<<16; offset += 3; }` -/
def rowDistanceStep (b : List Nat) (flags : Nat) (s : RowingData × Nat) :
    Option (RowingData × Nat) :=
  if flags &&& 0x0004 ≠ 0 then do
    let d0 ← getUint8 b s.2
    let d1 ← getUint8 b (s.2 + 1)
    let d2 ← getUint8 b (s.2 + 2)
    pure ({ s.1 with distance := some (d0 ||| (d1 <<< 8) ||| (d2 <<< 16)) }, s.2 + 3)
  else pure s

/-- `if (flags & 0x0008) offset += 2;  // Instantaneous Pace` -/
def rowPaceStep (flags offset : Nat) : Nat :=
  if flags &&& 0x0008 ≠ 0 then offset + 2 else offset

/-- `if (flags & 0x0010) offset += 2;  // Average Pace` -/
def rowAvgPaceStep (flags offset : Nat) : Nat :=
  if flags &&& 0x0010 ≠ 0 then offset + 2 else offset

/-- `if (flags & 0x0020) { result.watts = dataView.getInt16(offset, true); offset += 2; }` -/
def rowPowerStep (b : List Nat) (flags : Nat) (s : RowingData × Nat) :
    Option (RowingData × Nat) :=
  if flags &&& 0x0020 ≠ 0 then do
    let w ← getInt16le b s.2
    pure ({ s.1 with watts := some w }, s.2 + 2)
  else pure s

/-- `if (flags & 0x0040) offset += 2;  // Average Power` -/
def rowAvgPowerStep (flags offset : Nat) : Nat :=
  if flags &&& 0x0040 ≠ 0 then offset + 2 else offset

/-- `if (flags & 0x0080) offset += 2;  // Resistance Level` -/
def rowResistanceStep (flags offset : Nat) : Nat :=
  if flags &&& 0x0080 ≠ 0 then offset + 2 else offset

/-- `if (flags & 0x0100) { result.calories = dataView.getUint16(offset, true); offset += 5; }` -/
def rowEnergyStep (b : List Nat) (flags : Nat) (s : RowingData × Nat) :
    Option (RowingData × Nat) :=
  if flags &&& 0x0100 ≠ 0 then do
    let c ← getUint16le b s.2
    pure ({ s.1 with calories := some c }, s.2 + 5)
  else pure s

/-- `if (flags & 0x0200) offset += 1;  // Heart Rate` -/
def rowHeartRateStep (flags offset : Nat) : Nat :=
  if flags &&& 0x0200 ≠ 0 then offset + 1 else offset

/-- `if (flags & 0x0400) offset += 1;  // Metabolic Equivalent` -/
def rowMetStep (flags offset : Nat) : Nat :=
  if flags &&& 0x0400 ≠ 0 then offset + 1 else offset

/-- `if (flags & 0x0800) { result.elapsedTime = dataView.getUint16(offset, true); offset += 2; }` -/
def rowElapsedStep (b : List Nat) (flags : Nat) (s : RowingData × Nat) :
    Option (RowingData × Nat) :=
  if flags &&& 0x0800 ≠ 0 then do
    let t ← getUint16le b s.2
    pure ({ s.1 with elapsedTime := some t }, s.2 + 2)
  else pure s

/-- `parseRowingMachineData`, also exposing the final cursor value. -/
def parseRowingMachineDataAux (b : List Nat) : Option (RowingData × Nat) := do
  let flags ← getUint16le b 0
  let s : RowingData × Nat := (⟨none, none, none, none, none⟩, 2)
  let s ← rowStrokeStep b flags s
  let s := (s.1, rowAvgStrokeStep flags s.2)
  let s ← rowDistanceStep b flags s
  let s := (s.1, rowPaceStep flags s.2)
  let s := (s.1, rowAvgPaceStep flags s.2)
  let s ← rowPowerStep b flags s
  let s := (s.1, rowAvgPowerStep flags s.2)
  let s := (s.1, rowResistanceStep flags s.2)
  let s ← rowEnergyStep b flags s
  let s := (s.1, rowHeartRateStep flags s.2)
  let s := (s.1, rowMetStep flags s.2)
  let s ← rowElapsedStep b flags s
  pure s

/-- `parseRowingMachineData` as the source returns it (result object only). -/
def parseRowingMachineData (b : List Nat) : Option RowingData :=
  (parseRowingMachineDataAux b).map Prod.fst

/-! ## Heart Rate Measurement (0x2A37) decoder -/

/-- `parseHRMeasurement`: flags bit 0 selects uint16-LE (set) or uint8 (clear)
BPM at offset 1. -/
def parseHRMeasurement (b : List Nat) : Option Nat := do
  let flags ← getUint8 b 0
  if flags &&& 0x01 ≠ 0 then getUint16le b 1 else getUint8 b 1

/-! ## Spec-side layout formulas

Modelled from the spec's description of the frame layout ("the flags
bitmask deterministically fixes the byte layout that follows it; fields
are read in a fixed bit-order, each consuming a fixed-width slot").
Each definition is the cursor position at which a given field's read
starts: 2 (the flags word) plus the widths of every earlier present
field.  These are compared against the cursor of the embedded source
decoders. -/

/-- Cursor at which the bike Instantaneous Cadence read starts. -/
def bikeCadenceOffset (flags : Nat) : Nat :=
  2 + (if flags &&& 0x0001 = 0 then 2 else 0) + (if flags &&& 0x0002 ≠ 0 then 2 else 0)

/-- Cursor at which the bike Total Distance read starts. -/
def bikeDistanceOffset (flags : Nat) : Nat :=
  bikeCadenceOffset flags + (if flags &&& 0x0004 ≠ 0 then 2 else 0) +
    (if flags &&& 0x0008 ≠ 0 then 2 else 0)

/-- Cursor at which the bike Instantaneous Power read starts. -/
def bikePowerOffset (flags : Nat) : Nat :=
  bikeDistanceOffset flags + (if flags &&& 0x0010 ≠ 0 then 3 else 0) +
    (if flags &&& 0x0020 ≠ 0 then 2 else 0)

/-- Cursor at which the bike Expended Energy read starts. -/
def bikeEnergyOffset (flags : Nat) : Nat :=
  bikePowerOffset flags + (if flags &&& 0x0040 ≠ 0 then 2 else 0) +
    (if flags &&& 0x0080 ≠ 0 then 2 else 0)

/-- Cursor at which the bike Elapsed Time read starts (the energy field,
when present, consumes its full 5-byte on-wire width before it). -/
def bikeElapsedOffset (flags : Nat) : Nat :=
  bikeEnergyOffset flags + (if flags &&& 0x0100 ≠ 0 then 5 else 0) +
    (if flags &&& 0x0200 ≠ 0 then 1 else 0) + (if flags &&& 0x0400 ≠ 0 then 1 else 0)

/-- Total number of bytes a bike frame with the given flags occupies. -/
def bikeExpectedOffset (flags : Nat) : Nat :=
  bikeElapsedOffset flags + (if flags &&& 0x0800 ≠ 0 then 2 else 0)

/-- Cursor at which the rower Total Distance read starts (the stroke-rate
field, present when bit 0 is clear, consumes 3 bytes: uint8 stroke rate
plus uint16 stroke count). -/
def rowDistanceOffset (flags : Nat) : Nat :=
  2 + (if flags &&& 0x0001 = 0 then 3 else 0) + (if flags &&& 0x0002 ≠ 0 then 1 else 0)

/-- Cursor at which the rower Instantaneous Power read starts. -/
def rowPowerOffset (flags : Nat) : Nat :=
  rowDistanceOffset flags + (if flags &&& 0x0004 ≠ 0 then 3 else 0) +
    (if flags &&& 0x0008 ≠ 0 then 2 else 0) + (if flags &&& 0x0010 ≠ 0 then 2 else 0)

/-- Cursor at which the rower Expended Energy read starts. -/
def rowEnergyOffset (flags : Nat) : Nat :=
  rowPowerOffset flags + (if flags &&& 0x0020 ≠ 0 then 2 else 0) +
    (if flags &&& 0x0040 ≠ 0 then 2 else 0) + (if flags &&& 0x0080 ≠ 0 then 2 else 0)

/-- Cursor at which the rower Elapsed Time read starts. -/
def rowElapsedOffset (flags : Nat) : Nat :=
  rowEnergyOffset flags + (if flags &&& 0x0100 ≠ 0 then 5 else 0) +
    (if flags &&& 0x0200 ≠ 0 then 1 else 0) + (if flags &&& 0x0400 ≠ 0 then 1 else 0)

/-- Total number of bytes a rower frame with the given flags occupies. -/
def rowExpectedOffset (flags : Nat) : Nat :=
  rowElapsedOffset flags + (if flags &&& 0x0800 ≠ 0 then 2 else 0)

/-! ## Connection state machine of `_connectWithDevice`

After a successful initial connect, the session's behaviour is governed by
the closure state of `_connectWithDevice` (`fullyConnected`,
`disconnectTimer`), the `gattserverdisconnected` listener, the debounce
timer callback, and `attemptSilentReconnect`.  This is embedded as a
transition system; one transition corresponds to one synchronous segment
of the single-threaded JS event loop:

* `gattDrop` — the transport drops and the `gattserverdisconnected`
  event is dispatched (running `onGattDisconnected` if the listener is
  attached);
* `gattUp` — the transport reports connected again (host-stack level
  link recovery); after an explicit `device.gatt.disconnect()` the
  transport does not come back up on its own, only a `connect()` call
  from a reconnect cycle can re-establish it;
* `timerFire id` — a pending `setTimeout` callback with that id fires and
  runs up to its first `await` (the `device.gatt.connected` re-check,
  then `onReconnecting` and the start of `attemptSilentReconnect`);
* `cycleRun ok` — one iteration of the `for` loop of
  `attemptSilentReconnect` of the oldest in-flight callback runs between
  two `await`s; `ok` tells whether connect + stabilise + getPrimaryService
  + subscribe all succeeded this cycle;
* `callerDisconnect` — the caller invokes the `disconnect()` method of
  the returned handle (synchronous);
* `notify bytes` — a `characteristicvaluechanged` notification is
  dispatched to `handleNotification`.

The `setTimeout` / `clearTimeout` pair is modelled by a list of pending
timers (arm appends, clear removes by id) plus `timerVar`, the current
value of the `disconnectTimer` variable, so that `clearTimeout` cancels
exactly the timeout that variable refers to. -/

/-- One armed (not yet fired) `setTimeout`: its timeout id and its delay
in milliseconds. -/
structure ArmedTimer where
  id : Nat
  delayMs : Nat
deriving Repr, DecidableEq

/-- Session state after `_connectWithDevice` resolved its handle:
the closure variables, the listener, the transport link state, the
in-flight `attemptSilentReconnect` callbacks (each recorded by how many
of its 3 cycles remain), and the callback history surfaced to the caller. -/
structure Sess (M : Type) where
  fullyConnected : Bool
  listenerAttached : Bool
  gattConnected : Bool
  intentionallyClosed : Bool
  pendingTimers : List ArmedTimer
  timerVar : Nat
  nextId : Nat
  tasks : List Nat
  reconCount : Nat
  termCount : Nat
  metricsLog : List M
deriving Repr, DecidableEq

/-- `onGattDisconnected` (lines 215-229): early-return unless
`fullyConnected`; otherwise `clearTimeout(disconnectTimer)` and arm a
fresh debounce timeout. -/
def onGattDisconnected {M : Type} (debounceMs : Nat) (s : Sess M) : Sess M :=
  if s.fullyConnected = false then s
  else
    { s with
      pendingTimers :=
        (s.pendingTimers.filter (fun t => t.id ≠ s.timerVar)) ++ [⟨s.nextId, debounceMs⟩],
      timerVar := s.nextId,
      nextId := s.nextId + 1 }

/-- Events delivered to one session by the event loop / environment. -/
inductive BtEvent where
  | gattDrop
  | gattUp
  | timerFire (id : Nat)
  | cycleRun (ok : Bool)
  | callerDisconnect
  | notify (bytes : List Nat)
deriving Repr, DecidableEq

/-- One event-loop turn of the session. -/
def step {M : Type} (decode : List Nat → Option M) (debounceMs : Nat)
    (s : Sess M) : BtEvent → Sess M
  | .gattDrop =>
    let s := { s with gattConnected := false }
    if s.listenerAttached then onGattDisconnected debounceMs s else s
  | .gattUp =>
    if s.intentionallyClosed then s else { s with gattConnected := true }
  | .timerFire id =>
    if s.pendingTimers.any (fun t => t.id = id) then
      let s := { s with pendingTimers := s.pendingTimers.filter (fun t => t.id ≠ id) }
      -- `if (device.gatt.connected) return;`
      if s.gattConnected then s
      else
        -- `onReconnecting?.();` then `attemptSilentReconnect()` starts
        { s with reconCount := s.reconCount + 1, tasks := s.tasks ++ [3] }
    else s
  | .cycleRun ok =>
    match s.tasks with
    | [] => s
    | r :: rest =>
      if ok then
        -- silent reconnect succeeded: connected and re-subscribed
        { s with tasks := rest, gattConnected := true }
      else if r ≤ 1 then
        -- last cycle failed: `fullyConnected = false; onDisconnect?.();`
        { s with tasks := rest, fullyConnected := false, termCount := s.termCount + 1 }
      else
        -- cycle failed, 1 s backoff, next cycle still to run
        { s with tasks := (r - 1) :: rest }
  | .callerDisconnect =>
    -- `clearTimeout(disconnectTimer); fullyConnected = false;
    --  removeEventListener(...); if (connected) gatt.disconnect();`
    { s with
      pendingTimers := s.pendingTimers.filter (fun t => t.id ≠ s.timerVar),
      fullyConnected := false,
      listenerAttached := false,
      gattConnected := false,
      intentionallyClosed := true }
  | .notify bytes =>
    -- notifications are only delivered while the transport link is up
    if s.gattConnected then
      match decode bytes with
      | some m => { s with metricsLog := s.metricsLog ++ [m] }
      | none => s  -- `catch` in `handleNotification`: frame dropped
    else s

/-- Run a list of events from a given state. -/
def runFrom {M : Type} (decode : List Nat → Option M) (debounceMs : Nat)
    (s : Sess M) : List BtEvent → Sess M
  | [] => s
  | e :: rest => runFrom decode debounceMs (step decode debounceMs s e) rest

/-- Session state at the moment `_connectWithDevice` returns its handle:
`fullyConnected = true`, listener attached, transport up, no pending
timer, no in-flight reconnect, no callback fired yet. -/
def initSess (M : Type) : Sess M :=
  { fullyConnected := true
    listenerAttached := true
    gattConnected := true
    intentionallyClosed := false
    pendingTimers := []
    timerVar := 0
    nextId := 1
    tasks := []
    reconCount := 0
    termCount := 0
    metricsLog := [] }

/-- A machine session (Indoor Bike decoder, 5000 ms debounce, line 228). -/
def stepBike (s : Sess BikeData) (e : BtEvent) : Sess BikeData :=
  step parseIndoorBikeData 5000 s e

/-- Run a machine session from the connected state. -/
def runBike (evs : List BtEvent) : Sess BikeData :=
  runFrom parseIndoorBikeData 5000 (initSess BikeData) evs

/-- Run a machine session from an arbitrary state. -/
def runBikeFrom (s : Sess BikeData) (evs : List BtEvent) : Sess BikeData :=
  runFrom parseIndoorBikeData 5000 s evs

/-- A heart-rate session (HR decoder, 3000 ms debounce, line 454). -/
def stepHR (s : Sess Nat) (e : BtEvent) : Sess Nat :=
  step parseHRMeasurement 3000 s e

/-- Run a heart-rate session from the connected state. -/
def runHR (evs : List BtEvent) : Sess Nat :=
  runFrom parseHRMeasurement 3000 (initSess Nat) evs

/-- `quietTrace s evs = true` when every `gattDrop` of `evs` is delivered
at a moment with no in-flight `attemptSilentReconnect` callback. -/
def quietTrace {M : Type} (decode : List Nat → Option M) (debounceMs : Nat)
    (s : Sess M) : List BtEvent → Bool
  | [] => true
  | e :: rest =>
    (match e with
     | .gattDrop => s.tasks.isEmpty
     | _ => true) &&
    quietTrace decode debounceMs (step decode debounceMs s e) rest

/-! ## Connect phase of `_connectWithDevice` and the `reconnectToMachine` facade

The GATT connect retry loop (lines 234-288) performs, per attempt, the
whole connect → stabilise → getPrimaryService → subscribe sequence inside
one `try`.  The environment decides whether a given attempt succeeds or
throws; an attempt is therefore modelled by an `AttemptResult`.  The loop
returns the handle on the first success, sleeps 1000 ms between failed
attempts, and after the last failure removes the
`gattserverdisconnected` listener and rethrows the last error. -/

/-- Outcome of one whole connect attempt (connect, stabilisation,
service lookup, subscription): success, or a thrown error (by code). -/
inductive AttemptResult where
  | ok
  | err (code : Nat)
deriving Repr, DecidableEq

/-- What the connect phase of `_connectWithDevice` left behind. -/
structure ConnectResult where
  /-- `some n` — a single resolved handle, after `n` attempts. -/
  handle : Option Nat
  /-- `some c` — the rethrown last error when every attempt failed. -/
  thrown : Option Nat
  /-- whether the `gattserverdisconnected` listener is still attached. -/
  listenerOn : Bool
  /-- the inter-attempt backoff sleeps performed, in ms. -/
  waits : List Nat
  /-- number of attempts actually made. -/
  attemptsMade : Nat
deriving Repr, DecidableEq

/-- The `for (attempt = 1; attempt <= maxAttempts; ...)` loop, with the
outcomes of the remaining attempts as a list.  Accumulators: `lastErr`
(the `lastErr` variable), `made` (attempts already made) and `waits`
(sleeps already performed). -/
def connectLoop : List AttemptResult → Option Nat → Nat → List Nat → ConnectResult
  | [], lastErr, made, waits =>
    -- loop exhausted: `removeEventListener(...); throw lastErr;`
    { handle := none, thrown := lastErr, listenerOn := false
      waits := waits, attemptsMade := made }
  | .ok :: _, _, made, waits =>
    -- `return { deviceName, disconnect() {...} };`
    { handle := some (made + 1), thrown := none, listenerOn := true
      waits := waits, attemptsMade := made + 1 }
  | .err c :: rest, _, made, waits =>
    -- `lastErr = err; if (attempt < maxAttempts) await sleep(1000);`
    connectLoop rest (some c) (made + 1) (if rest = [] then waits else waits ++ [1000])

/-- `opts.maxAttempts` / `opts.stabilizationDelay` of `_connectWithDevice`. -/
structure ConnectOpts where
  maxAttempts : Nat
  stabilizationDelay : Nat
deriving Repr, DecidableEq

/-- The defaults destructured at lines 154-157. -/
def defaultConnectOpts : ConnectOpts := ⟨3, 2000⟩

/-- Lines 159-160: `machineType === MACHINE_TYPES.SKI_ERG ?
CHAR_ROWING_MACHINE_DATA : CHAR_INDOOR_BIKE_DATA`. -/
def charUuidFor (machineType : String) : Nat :=
  if machineType = "ski_erg" then 0x2ad1 else 0x2ad2

/-- Which decoder lines 161-162 select. -/
inductive FtmsDecoder where
  | indoorBike
  | rowingMachine
deriving Repr, DecidableEq

/-- Lines 161-162: `machineType === MACHINE_TYPES.SKI_ERG ?
parseRowingMachineData : parseIndoorBikeData`. -/
def decoderFor (machineType : String) : FtmsDecoder :=
  if machineType = "ski_erg" then .rowingMachine else .indoorBike

/-- Everything `_connectWithDevice` fixes for one device before and during
the connect phase: the selected characteristic and decoder (chosen
unconditionally from `machineType`, with no validation), the options
used, and the outcome of the retry loop run on the environment-supplied
per-attempt outcomes. -/
structure DeviceSetup where
  charUuid : Nat
  decoder : FtmsDecoder
  opts : ConnectOpts
  result : ConnectResult
deriving Repr, DecidableEq

/-- `_connectWithDevice(device, machineType, ..., opts)` — connect phase.
`outcomes i` is what attempt `i` (0-based) would do. -/
def connectWithDevice (machineType : String) (opts : ConnectOpts)
    (outcomes : Nat → AttemptResult) : DeviceSetup :=
  { charUuid := charUuidFor machineType
    decoder := decoderFor machineType
    opts := opts
    result := connectLoop ((List.range opts.maxAttempts).map outcomes) none 0 [] }

/-- Error thrown when `navigator.bluetooth.getDevices` is unavailable. -/
def errGetDevicesUnsupported : Nat := 100

/-- Error thrown when the recalled device list is empty. -/
def errNoAuthorizedDevices : Nat := 101

/-- Error thrown after every candidate device failed. -/
def errAllCandidatesFailed : Nat := 102

/-- The `for (const device of devices)` loop of `reconnectToMachine`:
try each candidate with `{ maxAttempts: 1, stabilizationDelay: 1000 }`,
return the first success, throw after the last failure.  `outcomes d i`
is what attempt `i` on device `d` would do. -/
def tryDevices (machineType : String) (outcomes : Nat → Nat → AttemptResult) :
    List Nat → Except Nat (Nat × DeviceSetup)
  | [] => .error errAllCandidatesFailed
  | d :: rest =>
    let setup := connectWithDevice machineType ⟨1, 1000⟩ (outcomes d)
    match setup.result.handle with
    | some _ => .ok (d, setup)
    | none => tryDevices machineType outcomes rest

/-- `reconnectToMachine` (lines 339-364): fail fast when `getDevices` is
unsupported, fail when the recalled list is empty, otherwise try each
previously authorised device in order. -/
def reconnectToMachine (getDevicesSupported : Bool) (devices : List Nat)
    (machineType : String) (outcomes : Nat → Nat → AttemptResult) :
    Except Nat (Nat × DeviceSetup) :=
  if getDevicesSupported = false then .error errGetDevicesUnsupported
  else if devices = [] then .error errNoAuthorizedDevices
  else tryDevices machineType outcomes devices

/-! ## Decoder lemmas -/

theorem bikeSpeedStep_eq (flags offset : Nat) :
    bikeSpeedStep flags offset = offset + (if flags &&& 0x0001 = 0 then 2 else 0) := by
  unfold bikeSpeedStep; split <;> simp_all

theorem bikeAvgSpeedStep_eq (flags offset : Nat) :
    bikeAvgSpeedStep flags offset = offset + (if flags &&& 0x0002 ≠ 0 then 2 else 0) := by
  unfold bikeAvgSpeedStep; split <;> simp_all

theorem bikeAvgCadenceStep_eq (flags offset : Nat) :
    bikeAvgCadenceStep flags offset = offset + (if flags &&& 0x0008 ≠ 0 then 2 else 0) := by
  unfold bikeAvgCadenceStep; split <;> simp_all

theorem bikeResistanceStep_eq (flags offset : Nat) :
    bikeResistanceStep flags offset = offset + (if flags &&& 0x0020 ≠ 0 then 2 else 0) := by
  unfold bikeResistanceStep; split <;> simp_all

theorem bikeAvgPowerStep_eq (flags offset : Nat) :
    bikeAvgPowerStep flags offset = offset + (if flags &&& 0x0080 ≠ 0 then 2 else 0) := by
  unfold bikeAvgPowerStep; split <;> simp_all

theorem bikeHeartRateStep_eq (flags offset : Nat) :
    bikeHeartRateStep flags offset = offset + (if flags &&& 0x0200 ≠ 0 then 1 else 0) := by
  unfold bikeHeartRateStep; split <;> simp_all

theorem bikeMetStep_eq (flags offset : Nat) :
    bikeMetStep flags offset = offset + (if flags &&& 0x0400 ≠ 0 then 1 else 0) := by
  unfold bikeMetStep; split <;> simp_all

theorem bikeCadenceStep_spec (b : List Nat) (flags : Nat) (r : BikeData) (off : Nat)
    (s' : BikeData × Nat) (h : bikeCadenceStep b flags (r, off) = some s') :
    s'.2 = off + (if flags &&& 0x0004 ≠ 0 then 2 else 0) ∧
    s'.1.watts = r.watts ∧ s'.1.distance = r.distance ∧ s'.1.calories = r.calories ∧
    s'.1.elapsedTime = r.elapsedTime ∧
    (flags &&& 0x0004 = 0 → s'.1.cadence = r.cadence) ∧
    (flags &&& 0x0004 ≠ 0 →
      ∃ u, getUint16le b off = some u ∧ s'.1.cadence = some ((u : ℚ) * 0.5)) := by
  unfold bikeCadenceStep at h
  by_cases hc : flags &&& 0x0004 = 0
  · simp only [hc, ne_eq, not_true_eq_false, if_false, pure] at h
    cases h
    simp [hc]
  · rw [if_pos hc] at h
    simp only [bind, Option.bind_eq_some, Option.some.injEq, pure] at h
    obtain ⟨u, hu, hs⟩ := h
    subst hs
    exact ⟨by simp [hc], rfl, rfl, rfl, rfl, fun hc2 => absurd hc2 hc, fun _ => ⟨u, hu, rfl⟩⟩

theorem bikeDistanceStep_spec (b : List Nat) (flags : Nat) (r : BikeData) (off : Nat)
    (s' : BikeData × Nat) (h : bikeDistanceStep b flags (r, off) = some s') :
    s'.2 = off + (if flags &&& 0x0010 ≠ 0 then 3 else 0) ∧
    s'.1.watts = r.watts ∧ s'.1.cadence = r.cadence ∧ s'.1.calories = r.calories ∧
    s'.1.elapsedTime = r.elapsedTime ∧
    (flags &&& 0x0010 = 0 → s'.1.distance = r.distance) ∧
    (flags &&& 0x0010 ≠ 0 →
      ∃ d0 d1 d2, getUint8 b off = some d0 ∧ getUint8 b (off + 1) = some d1 ∧
        getUint8 b (off + 2) = some d2 ∧
        s'.1.distance = some (d0 ||| (d1 <<< 8) ||| (d2 <<< 16))) := by
  unfold bikeDistanceStep at h
  by_cases hc : flags &&& 0x0010 = 0
  · simp only [hc, ne_eq, not_true_eq_false, if_false, pure] at h
    cases h
    simp [hc]
  · rw [if_pos hc] at h
    simp only [bind, Option.bind_eq_some, Option.some.injEq, pure] at h
    obtain ⟨d0, h0, d1, h1, d2, h2, hs⟩ := h
    subst hs
    exact ⟨by simp [hc], rfl, rfl, rfl, rfl, fun hc2 => absurd hc2 hc,
      fun _ => ⟨d0, d1, d2, h0, h1, h2, rfl⟩⟩

theorem bikePowerStep_spec (b : List Nat) (flags : Nat) (r : BikeData) (off : Nat)
    (s' : BikeData × Nat) (h : bikePowerStep b flags (r, off) = some s') :
    s'.2 = off + (if flags &&& 0x0040 ≠ 0 then 2 else 0) ∧
    s'.1.cadence = r.cadence ∧ s'.1.distance = r.distance ∧ s'.1.calories = r.calories ∧
    s'.1.elapsedTime = r.elapsedTime ∧
    (flags &&& 0x0040 = 0 → s'.1.watts = r.watts) ∧
    (flags &&& 0x0040 ≠ 0 →
      ∃ w, getInt16le b off = some w ∧ s'.1.watts = some w) := by
  unfold bikePowerStep at h
  by_cases hc : flags &&& 0x0040 = 0
  · simp only [hc, ne_eq, not_true_eq_false, if_false, pure] at h
    cases h
    simp [hc]
  · rw [if_pos hc] at h
    simp only [bind, Option.bind_eq_some, Option.some.injEq, pure] at h
    obtain ⟨w, hw, hs⟩ := h
    subst hs
    exact ⟨by simp [hc], rfl, rfl, rfl, rfl, fun hc2 => absurd hc2 hc, fun _ => ⟨w, hw, rfl⟩⟩

theorem bikeEnergyStep_spec (b : List Nat) (flags : Nat) (r : BikeData) (off : Nat)
    (s' : BikeData × Nat) (h : bikeEnergyStep b flags (r, off) = some s') :
    s'.2 = off + (if flags &&& 0x0100 ≠ 0 then 5 else 0) ∧
    s'.1.cadence = r.cadence ∧ s'.1.distance = r.distance ∧ s'.1.watts = r.watts ∧
    s'.1.elapsedTime = r.elapsedTime ∧
    (flags &&& 0x0100 = 0 → s'.1.calories = r.calories) ∧
    (flags &&& 0x0100 ≠ 0 →
      ∃ c, getUint16le b off = some c ∧ s'.1.calories = some c) := by
  unfold bikeEnergyStep at h
  by_cases hc : flags &&& 0x0100 = 0
  · simp only [hc, ne_eq, not_true_eq_false, if_false, pure] at h
    cases h
    simp [hc]
  · rw [if_pos hc] at h
    simp only [bind, Option.bind_eq_some, Option.some.injEq, pure] at h
    obtain ⟨c, hcal, hs⟩ := h
    subst hs
    exact ⟨by simp [hc], rfl, rfl, rfl, rfl, fun hc2 => absurd hc2 hc, fun _ => ⟨c, hcal, rfl⟩⟩

theorem bikeElapsedStep_spec (b : List Nat) (flags : Nat) (r : BikeData) (off : Nat)
    (s' : BikeData × Nat) (h : bikeElapsedStep b flags (r, off) = some s') :
    s'.2 = off + (if flags &&& 0x0800 ≠ 0 then 2 else 0) ∧
    s'.1.cadence = r.cadence ∧ s'.1.distance = r.distance ∧ s'.1.watts = r.watts ∧
    s'.1.calories = r.calories ∧
    (flags &&& 0x0800 = 0 → s'.1.elapsedTime = r.elapsedTime) ∧
    (flags &&& 0x0800 ≠ 0 →
      ∃ t, getUint16le b off = some t ∧ s'.1.elapsedTime = some t) := by
  unfold bikeElapsedStep at h
  by_cases hc : flags &&& 0x0800 = 0
  · simp only [hc, ne_eq, not_true_eq_false, if_false, pure] at h
    cases h
    simp [hc]
  · rw [if_pos hc] at h
    simp only [bind, Option.bind_eq_some, Option.some.injEq, pure] at h
    obtain ⟨t, ht, hs⟩ := h
    subst hs
    exact ⟨by simp [hc], rfl, rfl, rfl, rfl, fun hc2 => absurd hc2 hc, fun _ => ⟨t, ht, rfl⟩⟩

theorem rowAvgStrokeStep_eq (flags offset : Nat) :
    rowAvgStrokeStep flags offset = offset + (if flags &&& 0x0002 ≠ 0 then 1 else 0) := by
  unfold rowAvgStrokeStep; split <;> simp_all

theorem rowPaceStep_eq (flags offset : Nat) :
    rowPaceStep flags offset = offset + (if flags &&& 0x0008 ≠ 0 then 2 else 0) := by
  unfold rowPaceStep; split <;> simp_all

theorem rowAvgPaceStep_eq (flags offset : Nat) :
    rowAvgPaceStep flags offset = offset + (if flags &&& 0x0010 ≠ 0 then 2 else 0) := by
  unfold rowAvgPaceStep; split <;> simp_all

theorem rowAvgPowerStep_eq (flags offset : Nat) :
    rowAvgPowerStep flags offset = offset + (if flags &&& 0x0040 ≠ 0 then 2 else 0) := by
  unfold rowAvgPowerStep; split <;> simp_all

theorem rowResistanceStep_eq (flags offset : Nat) :
    rowResistanceStep flags offset = offset + (if flags &&& 0x0080 ≠ 0 then 2 else 0) := by
  unfold rowResistanceStep; split <;> simp_all

theorem rowHeartRateStep_eq (flags offset : Nat) :
    rowHeartRateStep flags offset = offset + (if flags &&& 0x0200 ≠ 0 then 1 else 0) := by
  unfold rowHeartRateStep; split <;> simp_all

theorem rowMetStep_eq (flags offset : Nat) :
    rowMetStep flags offset = offset + (if flags &&& 0x0400 ≠ 0 then 1 else 0) := by
  unfold rowMetStep; split <;> simp_all

theorem rowStrokeStep_spec (b : List Nat) (flags : Nat) (r : RowingData) (off : Nat)
    (s' : RowingData × Nat) (h : rowStrokeStep b flags (r, off) = some s') :
    s'.2 = off + (if flags &&& 0x0001 = 0 then 3 else 0) ∧
    s'.1.watts = r.watts ∧ s'.1.distance = r.distance ∧ s'.1.calories = r.calories ∧
    s'.1.elapsedTime = r.elapsedTime ∧
    (flags &&& 0x0001 ≠ 0 → s'.1.strokeRate = r.strokeRate) ∧
    (flags &&& 0x0001 = 0 →
      ∃ u, getUint8 b off = some u ∧ s'.1.strokeRate = some ((u : ℚ) * 0.5)) := by
  unfold rowStrokeStep at h
  by_cases hc : flags &&& 0x0001 = 0
  · rw [if_pos hc] at h
    simp only [bind, Option.bind_eq_some, Option.some.injEq, pure] at h
    obtain ⟨u, hu, hs⟩ := h
    subst hs
    exact ⟨by simp [hc], rfl, rfl, rfl, rfl, fun hc2 => absurd hc hc2, fun _ => ⟨u, hu, rfl⟩⟩
  · rw [if_neg hc] at h
    simp only [pure, Option.some.injEq] at h
    cases h
    exact ⟨by rw [if_neg hc]; rfl, rfl, rfl, rfl, rfl, fun _ => rfl, fun hc2 => absurd hc2 hc⟩

theorem rowDistanceStep_spec (b : List Nat) (flags : Nat) (r : RowingData) (off : Nat)
    (s' : RowingData × Nat) (h : rowDistanceStep b flags (r, off) = some s') :
    s'.2 = off + (if flags &&& 0x0004 ≠ 0 then 3 else 0) ∧
    s'.1.watts = r.watts ∧ s'.1.strokeRate = r.strokeRate ∧ s'.1.calories = r.calories ∧
    s'.1.elapsedTime = r.elapsedTime ∧
    (flags &&& 0x0004 = 0 → s'.1.distance = r.distance) ∧
    (flags &&& 0x0004 ≠ 0 →
      ∃ d0 d1 d2, getUint8 b off = some d0 ∧ getUint8 b (off + 1) = some d1 ∧
        getUint8 b (off + 2) = some d2 ∧
        s'.1.distance = some (d0 ||| (d1 <<< 8) ||| (d2 <<< 16))) := by
  unfold rowDistanceStep at h
  by_cases hc : flags &&& 0x0004 = 0
  · simp only [hc, ne_eq, not_true_eq_false, if_false, pure] at h
    cases h
    simp [hc]
  · rw [if_pos hc] at h
    simp only [bind, Option.bind_eq_some, Option.some.injEq, pure] at h
    obtain ⟨d0, h0, d1, h1, d2, h2, hs⟩ := h
    subst hs
    exact ⟨by simp [hc], rfl, rfl, rfl, rfl, fun hc2 => absurd hc2 hc,
      fun _ => ⟨d0, d1, d2, h0, h1, h2, rfl⟩⟩

theorem rowPowerStep_spec (b : List Nat) (flags : Nat) (r : RowingData) (off : Nat)
    (s' : RowingData × Nat) (h : rowPowerStep b flags (r, off) = some s') :
    s'.2 = off + (if flags &&& 0x0020 ≠ 0 then 2 else 0) ∧
    s'.1.strokeRate = r.strokeRate ∧ s'.1.distance = r.distance ∧ s'.1.calories = r.calories ∧
    s'.1.elapsedTime = r.elapsedTime ∧
    (flags &&& 0x0020 = 0 → s'.1.watts = r.watts) ∧
    (flags &&& 0x0020 ≠ 0 →
      ∃ w, getInt16le b off = some w ∧ s'.1.watts = some w) := by
  unfold rowPowerStep at h
  by_cases hc : flags &&& 0x0020 = 0
  · simp only [hc, ne_eq, not_true_eq_false, if_false, pure] at h
    cases h
    simp [hc]
  · rw [if_pos hc] at h
    simp only [bind, Option.bind_eq_some, Option.some.injEq, pure] at h
    obtain ⟨w, hw, hs⟩ := h
    subst hs
    exact ⟨by simp [hc], rfl, rfl, rfl, rfl, fun hc2 => absurd hc2 hc, fun _ => ⟨w, hw, rfl⟩⟩

theorem rowEnergyStep_spec (b : List Nat) (flags : Nat) (r : RowingData) (off : Nat)
    (s' : RowingData × Nat) (h : rowEnergyStep b flags (r, off) = some s') :
    s'.2 = off + (if flags &&& 0x0100 ≠ 0 then 5 else 0) ∧
    s'.1.strokeRate = r.strokeRate ∧ s'.1.distance = r.distance ∧ s'.1.watts = r.watts ∧
    s'.1.elapsedTime = r.elapsedTime ∧
    (flags &&& 0x0100 = 0 → s'.1.calories = r.calories) ∧
    (flags &&& 0x0100 ≠ 0 →
      ∃ c, getUint16le b off = some c ∧ s'.1.calories = some c) := by
  unfold rowEnergyStep at h
  by_cases hc : flags &&& 0x0100 = 0
  · simp only [hc, ne_eq, not_true_eq_false, if_false, pure] at h
    cases h
    simp [hc]
  · rw [if_pos hc] at h
    simp only [bind, Option.bind_eq_some, Option.some.injEq, pure] at h
    obtain ⟨c, hcal, hs⟩ := h
    subst hs
    exact ⟨by simp [hc], rfl, rfl, rfl, rfl, fun hc2 => absurd hc2 hc, fun _ => ⟨c, hcal, rfl⟩⟩

theorem rowElapsedStep_spec (b : List Nat) (flags : Nat) (r : RowingData) (off : Nat)
    (s' : RowingData × Nat) (h : rowElapsedStep b flags (r, off) = some s') :
    s'.2 = off + (if flags &&& 0x0800 ≠ 0 then 2 else 0) ∧
    s'.1.strokeRate = r.strokeRate ∧ s'.1.distance = r.distance ∧ s'.1.watts = r.watts ∧
    s'.1.calories = r.calories ∧
    (flags &&& 0x0800 = 0 → s'.1.elapsedTime = r.elapsedTime) ∧
    (flags &&& 0x0800 ≠ 0 →
      ∃ t, getUint16le b off = some t ∧ s'.1.elapsedTime = some t) := by
  unfold rowElapsedStep at h
  by_cases hc : flags &&& 0x0800 = 0
  · simp only [hc, ne_eq, not_true_eq_false, if_false, pure] at h
    cases h
    simp [hc]
  · rw [if_pos hc] at h
    simp only [bind, Option.bind_eq_some, Option.some.injEq, pure] at h
    obtain ⟨t, ht, hs⟩ := h
    subst hs
    exact ⟨by simp [hc], rfl, rfl, rfl, rfl, fun hc2 => absurd hc2 hc, fun _ => ⟨t, ht, rfl⟩⟩

/-- Everything the bike decoder guarantees about a successfully decoded
frame: the final cursor equals the flags-determined frame width, absent
flags leave their field `none`, and present flags read the documented
encoding at the flags-determined cursor position. -/
theorem parseIndoorBikeDataAux_spec (b : List Nat) (flags : Nat) (r : BikeData) (off : Nat)
    (hf : getUint16le b 0 = some flags)
    (h : parseIndoorBikeDataAux b = some (r, off)) :
    off = bikeExpectedOffset flags ∧
    (flags &&& 0x0004 = 0 → r.cadence = none) ∧
    (flags &&& 0x0004 ≠ 0 → ∃ u, getUint16le b (bikeCadenceOffset flags) = some u ∧
      r.cadence = some ((u : ℚ) * 0.5)) ∧
    (flags &&& 0x0010 = 0 → r.distance = none) ∧
    (flags &&& 0x0010 ≠ 0 → ∃ d0 d1 d2,
      getUint8 b (bikeDistanceOffset flags) = some d0 ∧
      getUint8 b (bikeDistanceOffset flags + 1) = some d1 ∧
      getUint8 b (bikeDistanceOffset flags + 2) = some d2 ∧
      r.distance = some (d0 ||| (d1 <<< 8) ||| (d2 <<< 16))) ∧
    (flags &&& 0x0040 = 0 → r.watts = none) ∧
    (flags &&& 0x0040 ≠ 0 → ∃ w, getInt16le b (bikePowerOffset flags) = some w ∧
      r.watts = some w) ∧
    (flags &&& 0x0100 = 0 → r.calories = none) ∧
    (flags &&& 0x0100 ≠ 0 → ∃ c, getUint16le b (bikeEnergyOffset flags) = some c ∧
      r.calories = some c) ∧
    (flags &&& 0x0800 = 0 → r.elapsedTime = none) ∧
    (flags &&& 0x0800 ≠ 0 → ∃ t, getUint16le b (bikeElapsedOffset flags) = some t ∧
      r.elapsedTime = some t) := by
  unfold parseIndoorBikeDataAux at h
  rw [hf] at h
  simp only [bind, Option.bind_eq_some, Option.some.injEq, pure] at h
  obtain ⟨f0, rfl, s1, h1, s2, h2, s3, h3, s4, h4, s5, h5, hfin⟩ := h
  have hR : s5.1 = r := by rw [hfin]
  have hO : s5.2 = off := by rw [hfin]
  obtain ⟨o1, c2w, c2d, c2c, c2e, cadU, cadS⟩ := bikeCadenceStep_spec _ _ _ _ _ h1
  obtain ⟨o2, d2w, d2cad, d2c, d2e, dU, dS⟩ := bikeDistanceStep_spec _ _ _ _ _ h2
  obtain ⟨o3, p2cad, p2d, p2c, p2e, pU, pS⟩ := bikePowerStep_spec _ _ _ _ _ h3
  obtain ⟨o4, e2cad, e2d, e2w, e2e, eU, eS⟩ := bikeEnergyStep_spec _ _ _ _ _ h4
  obtain ⟨o5, t2cad, t2d, t2w, t2c, tU, tS⟩ := bikeElapsedStep_spec _ _ _ _ _ h5
  have hc0 : bikeAvgSpeedStep flags (bikeSpeedStep flags 2) = bikeCadenceOffset flags := by
    rw [bikeSpeedStep_eq, bikeAvgSpeedStep_eq, bikeCadenceOffset]
  have hd0 : bikeAvgCadenceStep flags s1.2 = bikeDistanceOffset flags := by
    rw [bikeAvgCadenceStep_eq, o1, hc0, bikeDistanceOffset]
  have hp0 : bikeResistanceStep flags s2.2 = bikePowerOffset flags := by
    rw [bikeResistanceStep_eq, o2, hd0, bikePowerOffset]
  have he0 : bikeAvgPowerStep flags s3.2 = bikeEnergyOffset flags := by
    rw [bikeAvgPowerStep_eq, o3, hp0, bikeEnergyOffset]
  have ht0 : bikeMetStep flags (bikeHeartRateStep flags s4.2) = bikeElapsedOffset flags := by
    rw [bikeMetStep_eq, bikeHeartRateStep_eq, o4, he0, bikeElapsedOffset]
  refine ⟨by rw [← hO, o5, ht0, bikeExpectedOffset], ?_, ?_, ?_, ?_, ?_, ?_, ?_, ?_, ?_, ?_⟩
  · intro hz
    rw [← hR, t2cad, e2cad, p2cad, d2cad]
    exact cadU hz
  · intro hz
    rw [hc0] at cadS
    obtain ⟨u, hu, hval⟩ := cadS hz
    exact ⟨u, hu, by rw [← hR, t2cad, e2cad, p2cad, d2cad, hval]⟩
  · intro hz
    rw [← hR, t2d, e2d, p2d, dU hz, c2d]
  · intro hz
    rw [hd0] at dS
    obtain ⟨d0, d1, d2, h0, hd1, hd2, hval⟩ := dS hz
    exact ⟨d0, d1, d2, h0, hd1, hd2, by rw [← hR, t2d, e2d, p2d, hval]⟩
  · intro hz
    rw [← hR, t2w, e2w]
    rw [pU hz, d2w, c2w]
  · intro hz
    rw [hp0] at pS
    obtain ⟨w, hw, hval⟩ := pS hz
    exact ⟨w, hw, by rw [← hR, t2w, e2w, hval]⟩
  · intro hz
    rw [← hR, t2c]
    rw [eU hz, p2c, d2c, c2c]
  · intro hz
    rw [he0] at eS
    obtain ⟨c, hcv, hval⟩ := eS hz
    exact ⟨c, hcv, by rw [← hR, t2c, hval]⟩
  · intro hz
    rw [← hR]
    rw [tU hz, e2e, p2e, d2e, c2e]
  · intro hz
    rw [ht0] at tS
    obtain ⟨t, htv, hval⟩ := tS hz
    exact ⟨t, htv, by rw [← hR, hval]⟩

/-- Everything the rower decoder guarantees about a successfully decoded
frame (the stroke-rate field is the inverted-flag field: present when
bit 0 is clear, consuming 3 bytes). -/
theorem parseRowingMachineDataAux_spec (b : List Nat) (flags : Nat) (r : RowingData) (off : Nat)
    (hf : getUint16le b 0 = some flags)
    (h : parseRowingMachineDataAux b = some (r, off)) :
    off = rowExpectedOffset flags ∧
    (flags &&& 0x0001 ≠ 0 → r.strokeRate = none) ∧
    (flags &&& 0x0001 = 0 → ∃ u, getUint8 b 2 = some u ∧
      r.strokeRate = some ((u : ℚ) * 0.5)) ∧
    (flags &&& 0x0004 = 0 → r.distance = none) ∧
    (flags &&& 0x0004 ≠ 0 → ∃ d0 d1 d2,
      getUint8 b (rowDistanceOffset flags) = some d0 ∧
      getUint8 b (rowDistanceOffset flags + 1) = some d1 ∧
      getUint8 b (rowDistanceOffset flags + 2) = some d2 ∧
      r.distance = some (d0 ||| (d1 <<< 8) ||| (d2 <<< 16))) ∧
    (flags &&& 0x0020 = 0 → r.watts = none) ∧
    (flags &&& 0x0020 ≠ 0 → ∃ w, getInt16le b (rowPowerOffset flags) = some w ∧
      r.watts = some w) ∧
    (flags &&& 0x0100 = 0 → r.calories = none) ∧
    (flags &&& 0x0100 ≠ 0 → ∃ c, getUint16le b (rowEnergyOffset flags) = some c ∧
      r.calories = some c) ∧
    (flags &&& 0x0800 = 0 → r.elapsedTime = none) ∧
    (flags &&& 0x0800 ≠ 0 → ∃ t, getUint16le b (rowElapsedOffset flags) = some t ∧
      r.elapsedTime = some t) := by
  unfold parseRowingMachineDataAux at h
  rw [hf] at h
  simp only [bind, Option.bind_eq_some, Option.some.injEq, pure] at h
  obtain ⟨f0, rfl, s1, h1, s2, h2, s3, h3, s4, h4, s5, h5, hfin⟩ := h
  have hR : s5.1 = r := by rw [hfin]
  have hO : s5.2 = off := by rw [hfin]
  obtain ⟨o1, c2w, c2d, c2c, c2e, strU, strS⟩ := rowStrokeStep_spec _ _ _ _ _ h1
  obtain ⟨o2, d2w, d2s, d2c, d2e, dU, dS⟩ := rowDistanceStep_spec _ _ _ _ _ h2
  obtain ⟨o3, p2s, p2d, p2c, p2e, pU, pS⟩ := rowPowerStep_spec _ _ _ _ _ h3
  obtain ⟨o4, e2s, e2d, e2w, e2e, eU, eS⟩ := rowEnergyStep_spec _ _ _ _ _ h4
  obtain ⟨o5, t2s, t2d, t2w, t2c, tU, tS⟩ := rowElapsedStep_spec _ _ _ _ _ h5
  have hd0 : rowAvgStrokeStep flags s1.2 = rowDistanceOffset flags := by
    rw [rowAvgStrokeStep_eq, o1, rowDistanceOffset]
  have hp0 : rowAvgPaceStep flags (rowPaceStep flags s2.2) = rowPowerOffset flags := by
    rw [rowAvgPaceStep_eq, rowPaceStep_eq, o2, hd0, rowPowerOffset]
  have he0 : rowResistanceStep flags (rowAvgPowerStep flags s3.2) = rowEnergyOffset flags := by
    rw [rowResistanceStep_eq, rowAvgPowerStep_eq, o3, hp0, rowEnergyOffset]
  have ht0 : rowMetStep flags (rowHeartRateStep flags s4.2) = rowElapsedOffset flags := by
    rw [rowMetStep_eq, rowHeartRateStep_eq, o4, he0, rowElapsedOffset]
  refine ⟨by rw [← hO, o5, ht0, rowExpectedOffset], ?_, ?_, ?_, ?_, ?_, ?_, ?_, ?_, ?_, ?_⟩
  · intro hz
    rw [← hR, t2s, e2s, p2s, d2s]
    exact strU hz
  · intro hz
    obtain ⟨u, hu, hval⟩ := strS hz
    exact ⟨u, hu, by rw [← hR, t2s, e2s, p2s, d2s, hval]⟩
  · intro hz
    rw [← hR, t2d, e2d, p2d, dU hz, c2d]
  · intro hz
    rw [hd0] at dS
    obtain ⟨d0, d1, d2, h0, hd1, hd2, hval⟩ := dS hz
    exact ⟨d0, d1, d2, h0, hd1, hd2, by rw [← hR, t2d, e2d, p2d, hval]⟩
  · intro hz
    rw [← hR, t2w, e2w]
    rw [pU hz, d2w, c2w]
  · intro hz
    rw [hp0] at pS
    obtain ⟨w, hw, hval⟩ := pS hz
    exact ⟨w, hw, by rw [← hR, t2w, e2w, hval]⟩
  · intro hz
    rw [← hR, t2c]
    rw [eU hz, p2c, d2c, c2c]
  · intro hz
    rw [he0] at eS
    obtain ⟨c, hcv, hval⟩ := eS hz
    exact ⟨c, hcv, by rw [← hR, t2c, hval]⟩
  · intro hz
    rw [← hR]
    rw [tU hz, e2e, p2e, d2e, c2e]
  · intro hz
    rw [ht0] at tS
    obtain ⟨t, htv, hval⟩ := tS hz
    exact ⟨t, htv, by rw [← hR, hval]⟩

/-! ## Claim theorems: decoders -/

/-- C5: For every bike or erg frame, the 16-bit little-endian flags word at
offset 0 deterministically fixes the layout of the bytes that follow:
fields are tested in a fixed bit order (with the "more data" bit 0
inverted), every present field advances the read cursor by its fixed byte
width whether or not it is surfaced, and every field whose flag is not set
is absent (`none`) in the output; for a bike frame with flags = 0 all five
surfaced outputs are `none` and the speed field still consumes 2 bytes
(final cursor 4). -/
theorem claimC5_flags_fix_layout :
    (∀ b flags r off, getUint16le b 0 = some flags →
      parseIndoorBikeDataAux b = some (r, off) →
      off = bikeExpectedOffset flags ∧
      (flags &&& 0x0004 = 0 → r.cadence = none) ∧
      (flags &&& 0x0010 = 0 → r.distance = none) ∧
      (flags &&& 0x0040 = 0 → r.watts = none) ∧
      (flags &&& 0x0100 = 0 → r.calories = none) ∧
      (flags &&& 0x0800 = 0 → r.elapsedTime = none)) ∧
    (∀ b flags r off, getUint16le b 0 = some flags →
      parseRowingMachineDataAux b = some (r, off) →
      off = rowExpectedOffset flags ∧
      (flags &&& 0x0001 ≠ 0 → r.strokeRate = none) ∧
      (flags &&& 0x0004 = 0 → r.distance = none) ∧
      (flags &&& 0x0020 = 0 → r.watts = none) ∧
      (flags &&& 0x0100 = 0 → r.calories = none) ∧
      (flags &&& 0x0800 = 0 → r.elapsedTime = none)) ∧
    (∀ rest : List Nat, parseIndoorBikeDataAux (0 :: 0 :: rest) =
      some (⟨none, none, none, none, none⟩, 4)) := by
  refine ⟨?_, ?_, fun rest => rfl⟩
  · intro b flags r off hf h
    obtain ⟨ho, cU, _, dU, _, wU, _, calU, _, tU, _⟩ :=
      parseIndoorBikeDataAux_spec b flags r off hf h
    exact ⟨ho, cU, dU, wU, calU, tU⟩
  · intro b flags r off hf h
    obtain ⟨ho, sU, _, dU, _, wU, _, calU, _, tU, _⟩ :=
      parseRowingMachineDataAux_spec b flags r off hf h
    exact ⟨ho, sU, dU, wU, calU, tU⟩

/-- Witness for C5 at a concrete bike frame: flags 0x0044 (speed present
because bit 0 is clear, cadence and power present), 8 bytes consumed. -/
theorem claimC5_witness :
    getUint16le [68, 0, 1, 2, 10, 0, 100, 0] 0 = some 68 ∧
    parseIndoorBikeDataAux [68, 0, 1, 2, 10, 0, 100, 0] =
      some (⟨some 100, some (((10 : ℕ) : ℚ) * 0.5), none, none, none⟩, 8) ∧
    (8 = bikeExpectedOffset 68 ∧
      (68 &&& 0x0004 = 0 →
        BikeData.cadence ⟨some 100, some (((10 : ℕ) : ℚ) * 0.5), none, none, none⟩ = none) ∧
      (68 &&& 0x0010 = 0 →
        BikeData.distance ⟨some 100, some (((10 : ℕ) : ℚ) * 0.5), none, none, none⟩ = none) ∧
      (68 &&& 0x0040 = 0 →
        BikeData.watts ⟨some 100, some (((10 : ℕ) : ℚ) * 0.5), none, none, none⟩ = none) ∧
      (68 &&& 0x0100 = 0 →
        BikeData.calories ⟨some 100, some (((10 : ℕ) : ℚ) * 0.5), none, none, none⟩ = none) ∧
      (68 &&& 0x0800 = 0 →
        BikeData.elapsedTime ⟨some 100, some (((10 : ℕ) : ℚ) * 0.5), none, none, none⟩ = none)) :=
  ⟨by decide, rfl,
    claimC5_flags_fix_layout.1 [68, 0, 1, 2, 10, 0, 100, 0] 68
      ⟨some 100, some (((10 : ℕ) : ℚ) * 0.5), none, none, none⟩ 8 (by decide) rfl⟩

/-- C6: For every bike or erg frame in which a surfaced field is present,
its decoded value equals the documented encoding read at the cursor
position reached after consuming the widths of all earlier present
fields: cadence = u16-LE × 0.5 (bike), strokeRate = u8 × 0.5 with 3 bytes
consumed (erg), distance = u24-LE (`b0 ||| b1 <<< 8 ||| b2 <<< 16`),
watts = s16-LE, calories = u16-LE from the first 2 bytes of the 5-byte
energy field with the cursor advancing the full 5, elapsedTime = u16-LE. -/
theorem claimC6_field_encodings :
    (∀ b flags r off, getUint16le b 0 = some flags →
      parseIndoorBikeDataAux b = some (r, off) →
      (flags &&& 0x0004 ≠ 0 → ∃ u, getUint16le b (bikeCadenceOffset flags) = some u ∧
        r.cadence = some ((u : ℚ) * 0.5)) ∧
      (flags &&& 0x0010 ≠ 0 → ∃ d0 d1 d2,
        getUint8 b (bikeDistanceOffset flags) = some d0 ∧
        getUint8 b (bikeDistanceOffset flags + 1) = some d1 ∧
        getUint8 b (bikeDistanceOffset flags + 2) = some d2 ∧
        r.distance = some (d0 ||| (d1 <<< 8) ||| (d2 <<< 16))) ∧
      (flags &&& 0x0040 ≠ 0 → ∃ w, getInt16le b (bikePowerOffset flags) = some w ∧
        r.watts = some w) ∧
      (flags &&& 0x0100 ≠ 0 → ∃ c, getUint16le b (bikeEnergyOffset flags) = some c ∧
        r.calories = some c ∧
        bikeElapsedOffset flags = bikeEnergyOffset flags + 5 +
          (if flags &&& 0x0200 ≠ 0 then 1 else 0) + (if flags &&& 0x0400 ≠ 0 then 1 else 0)) ∧
      (flags &&& 0x0800 ≠ 0 → ∃ t, getUint16le b (bikeElapsedOffset flags) = some t ∧
        r.elapsedTime = some t)) ∧
    (∀ b flags r off, getUint16le b 0 = some flags →
      parseRowingMachineDataAux b = some (r, off) →
      (flags &&& 0x0001 = 0 → ∃ u, getUint8 b 2 = some u ∧
        r.strokeRate = some ((u : ℚ) * 0.5) ∧
        rowDistanceOffset flags = 2 + 3 + (if flags &&& 0x0002 ≠ 0 then 1 else 0)) ∧
      (flags &&& 0x0004 ≠ 0 → ∃ d0 d1 d2,
        getUint8 b (rowDistanceOffset flags) = some d0 ∧
        getUint8 b (rowDistanceOffset flags + 1) = some d1 ∧
        getUint8 b (rowDistanceOffset flags + 2) = some d2 ∧
        r.distance = some (d0 ||| (d1 <<< 8) ||| (d2 <<< 16))) ∧
      (flags &&& 0x0020 ≠ 0 → ∃ w, getInt16le b (rowPowerOffset flags) = some w ∧
        r.watts = some w) ∧
      (flags &&& 0x0100 ≠ 0 → ∃ c, getUint16le b (rowEnergyOffset flags) = some c ∧
        r.calories = some c ∧
        rowElapsedOffset flags = rowEnergyOffset flags + 5 +
          (if flags &&& 0x0200 ≠ 0 then 1 else 0) + (if flags &&& 0x0400 ≠ 0 then 1 else 0)) ∧
      (flags &&& 0x0800 ≠ 0 → ∃ t, getUint16le b (rowElapsedOffset flags) = some t ∧
        r.elapsedTime = some t)) := by
  constructor
  · intro b flags r off hf h
    obtain ⟨_, _, cadS, _, dS, _, wS, _, calS, _, tS⟩ :=
      parseIndoorBikeDataAux_spec b flags r off hf h
    refine ⟨cadS, dS, wS, fun hz => ?_, tS⟩
    obtain ⟨c, hcv, hval⟩ := calS hz
    exact ⟨c, hcv, hval, by rw [bikeElapsedOffset, if_pos hz]⟩
  · intro b flags r off hf h
    obtain ⟨_, _, strS, _, dS, _, wS, _, calS, _, tS⟩ :=
      parseRowingMachineDataAux_spec b flags r off hf h
    refine ⟨fun hz => ?_, dS, wS, fun hz => ?_, tS⟩
    · obtain ⟨u, hu, hval⟩ := strS hz
      exact ⟨u, hu, hval, by rw [rowDistanceOffset, if_pos hz]⟩
    · obtain ⟨c, hcv, hval⟩ := calS hz
      exact ⟨c, hcv, hval, by rw [rowElapsedOffset, if_pos hz]⟩

/-- Witness for C6 at concrete frames: a bike frame with flags 0x0111
(no speed, distance, energy) and an erg frame with flags 0 (stroke rate
present). -/
theorem claimC6_witness :
    getUint16le [17, 1, 1, 2, 3, 250, 0, 9, 9, 9] 0 = some 273 ∧
    parseIndoorBikeDataAux [17, 1, 1, 2, 3, 250, 0, 9, 9, 9] =
      some (⟨none, none, some 197121, some 250, none⟩, 10) ∧
    (273 &&& 0x0010 ≠ 0 → ∃ d0 d1 d2,
      getUint8 [17, 1, 1, 2, 3, 250, 0, 9, 9, 9] (bikeDistanceOffset 273) = some d0 ∧
      getUint8 [17, 1, 1, 2, 3, 250, 0, 9, 9, 9] (bikeDistanceOffset 273 + 1) = some d1 ∧
      getUint8 [17, 1, 1, 2, 3, 250, 0, 9, 9, 9] (bikeDistanceOffset 273 + 2) = some d2 ∧
      BikeData.distance ⟨none, none, some 197121, some 250, none⟩ =
        some (d0 ||| (d1 <<< 8) ||| (d2 <<< 16))) ∧
    (273 &&& 0x0100 ≠ 0 → ∃ c,
      getUint16le [17, 1, 1, 2, 3, 250, 0, 9, 9, 9] (bikeEnergyOffset 273) = some c ∧
      BikeData.calories ⟨none, none, some 197121, some 250, none⟩ = some c ∧
      bikeElapsedOffset 273 = bikeEnergyOffset 273 + 5 +
        (if 273 &&& 0x0200 ≠ 0 then 1 else 0) + (if 273 &&& 0x0400 ≠ 0 then 1 else 0)) ∧
    getUint16le [0, 0, 24, 7, 7] 0 = some 0 ∧
    parseRowingMachineDataAux [0, 0, 24, 7, 7] =
      some (⟨none, some (((24 : ℕ) : ℚ) * 0.5), none, none, none⟩, 5) ∧
    (0 &&& 0x0001 = 0 → ∃ u, getUint8 [0, 0, 24, 7, 7] 2 = some u ∧
      RowingData.strokeRate ⟨none, some (((24 : ℕ) : ℚ) * 0.5), none, none, none⟩ =
        some ((u : ℚ) * 0.5) ∧
      rowDistanceOffset 0 = 2 + 3 + (if 0 &&& 0x0002 ≠ 0 then 1 else 0)) :=
  ⟨by decide, rfl,
    (claimC6_field_encodings.1 [17, 1, 1, 2, 3, 250, 0, 9, 9, 9] 273
      ⟨none, none, some 197121, some 250, none⟩ 10 (by decide) rfl).2.1,
    (claimC6_field_encodings.1 [17, 1, 1, 2, 3, 250, 0, 9, 9, 9] 273
      ⟨none, none, some 197121, some 250, none⟩ 10 (by decide) rfl).2.2.2.1,
    by decide, rfl,
    (claimC6_field_encodings.2 [0, 0, 24, 7, 7] 0
      ⟨none, some (((24 : ℕ) : ℚ) * 0.5), none, none, none⟩ 5 (by decide) rfl).1⟩

/-- C8: For every heart-rate measurement buffer, the decoder reads an
8-bit flags byte at offset 0 and returns the unsigned 8-bit value at
offset 1 when flags bit 0 is clear, or the unsigned 16-bit little-endian
value at offset 1 when flags bit 0 is set; flags 0x00 with BPM byte 75
decodes to 75, and flags 0x01 with bytes [0xDC, 0x00] decodes to 220. -/
theorem claimC8_hr_decoder :
    (∀ b flags, getUint8 b 0 = some flags →
      (flags &&& 0x01 = 0 → parseHRMeasurement b = getUint8 b 1) ∧
      (flags &&& 0x01 ≠ 0 → parseHRMeasurement b = getUint16le b 1)) ∧
    parseHRMeasurement [0x00, 75] = some 75 ∧
    parseHRMeasurement [0x01, 0xDC, 0x00] = some 220 := by
  refine ⟨?_, by decide, by decide⟩
  intro b flags hf
  constructor
  · intro hz
    unfold parseHRMeasurement
    rw [hf]
    simp only [bind, Option.some_bind]
    rw [if_neg (by simp [hz])]
  · intro hz
    unfold parseHRMeasurement
    rw [hf]
    simp only [bind, Option.some_bind]
    rw [if_pos hz]

/-- Witness for C8: the general part instantiated at the 16-bit frame
[0x01, 0xDC, 0x00]. -/
theorem claimC8_witness :
    getUint8 [1, 220, 0] 0 = some 1 ∧
    ((1 &&& 0x01 = 0 → parseHRMeasurement [1, 220, 0] = getUint8 [1, 220, 0] 1) ∧
     (1 &&& 0x01 ≠ 0 → parseHRMeasurement [1, 220, 0] = getUint16le [1, 220, 0] 1)) :=
  ⟨by decide, claimC8_hr_decoder.1 [1, 220, 0] 1 (by decide)⟩

/-! ## State-machine lemmas -/

theorem filter_ne_of_all_eq (l : List ArmedTimer) (tv : Nat)
    (h : ∀ t ∈ l, t.id = tv) : l.filter (fun t => t.id ≠ tv) = [] := by
  induction l with
  | nil => rfl
  | cons a l ih =>
    have ha := h a (List.mem_cons_self a l)
    have hrest := ih (fun t ht => h t (List.mem_cons_of_mem a ht))
    simp only [List.filter_cons]
    rw [ha]
    simpa using hrest

/-- The basic invariant — at most one pending debounce timer, every
pending timer is the one the `disconnectTimer` variable refers to, and a
fully-connected session still has its disconnect listener — is preserved
by every event. -/
theorem step_basicInv {M : Type} (decode : List Nat → Option M) (dms : Nat)
    (s : Sess M) (e : BtEvent)
    (h1 : s.pendingTimers.length ≤ 1)
    (h2 : ∀ t ∈ s.pendingTimers, t.id = s.timerVar)
    (h3 : s.fullyConnected = true → s.listenerAttached = true) :
    (step decode dms s e).pendingTimers.length ≤ 1 ∧
    (∀ t ∈ (step decode dms s e).pendingTimers,
      t.id = (step decode dms s e).timerVar) ∧
    ((step decode dms s e).fullyConnected = true →
      (step decode dms s e).listenerAttached = true) := by
  cases e with
  | gattDrop =>
    by_cases hla : s.listenerAttached = true
    · by_cases hfc : s.fullyConnected = false
      · have hs : step decode dms s .gattDrop = { s with gattConnected := false } := by
          simp [step, onGattDisconnected, hla, hfc]
        rw [hs]
        exact ⟨h1, h2, h3⟩
      · have hs : step decode dms s .gattDrop =
            { s with
              gattConnected := false,
              pendingTimers := [⟨s.nextId, dms⟩],
              timerVar := s.nextId,
              nextId := s.nextId + 1 } := by
          simp [step, onGattDisconnected, hla, hfc]
          exact h2
        rw [hs]
        refine ⟨by simp, ?_, fun _ => hla⟩
        intro t ht
        simp only [List.mem_singleton] at ht
        simp [ht]
    · have hs : step decode dms s .gattDrop = { s with gattConnected := false } := by
        simp [step, hla]
      rw [hs]
      exact ⟨h1, h2, h3⟩
  | gattUp =>
    by_cases hic : s.intentionallyClosed = true
    · have hs : step decode dms s .gattUp = s := by simp [step, hic]
      rw [hs]
      exact ⟨h1, h2, h3⟩
    · have hs : step decode dms s .gattUp = { s with gattConnected := true } := by
        simp [step, hic]
      rw [hs]
      exact ⟨h1, h2, h3⟩
  | timerFire id =>
    by_cases hany : s.pendingTimers.any (fun t => t.id = id) = true
    · by_cases hgc : s.gattConnected = true
      · have hs : step decode dms s (.timerFire id) =
            { s with pendingTimers := s.pendingTimers.filter (fun t => t.id ≠ id) } := by
          simp [step, hany, hgc]
        rw [hs]
        exact ⟨le_trans (List.length_filter_le _ _) h1,
          fun t ht => h2 t (List.mem_of_mem_filter ht), h3⟩
      · have hs : step decode dms s (.timerFire id) =
            { s with
              pendingTimers := s.pendingTimers.filter (fun t => t.id ≠ id),
              reconCount := s.reconCount + 1,
              tasks := s.tasks ++ [3] } := by
          simp [step, hany, hgc]
        rw [hs]
        exact ⟨le_trans (List.length_filter_le _ _) h1,
          fun t ht => h2 t (List.mem_of_mem_filter ht), h3⟩
    · have hs : step decode dms s (.timerFire id) = s := by simp [step, hany]
      rw [hs]
      exact ⟨h1, h2, h3⟩
  | cycleRun ok =>
    cases hts : s.tasks with
    | nil =>
      have hs : step decode dms s (.cycleRun ok) = s := by simp [step, hts]
      rw [hs]
      exact ⟨h1, h2, h3⟩
    | cons r rest =>
      by_cases hok : ok = true
      · have hs : step decode dms s (.cycleRun ok) =
            { s with tasks := rest, gattConnected := true } := by simp [step, hts, hok]
        rw [hs]
        exact ⟨h1, h2, h3⟩
      · by_cases hr : r ≤ 1
        · have hs : step decode dms s (.cycleRun ok) =
              { s with
                tasks := rest,
                fullyConnected := false,
                termCount := s.termCount + 1 } := by simp [step, hts, hok, hr]
          rw [hs]
          exact ⟨h1, h2, by simp⟩
        · have hs : step decode dms s (.cycleRun ok) =
              { s with tasks := (r - 1) :: rest } := by simp [step, hts, hok, hr]
          rw [hs]
          exact ⟨h1, h2, h3⟩
  | callerDisconnect =>
    have hs : step decode dms s .callerDisconnect =
        { s with
          pendingTimers := s.pendingTimers.filter (fun t => t.id ≠ s.timerVar),
          fullyConnected := false,
          listenerAttached := false,
          gattConnected := false,
          intentionallyClosed := true } := by simp [step]
    rw [hs]
    exact ⟨le_trans (List.length_filter_le _ _) h1,
      fun t ht => h2 t (List.mem_of_mem_filter ht), by simp⟩
  | notify bytes =>
    by_cases hgc : s.gattConnected = true
    · cases hd : decode bytes with
      | some m =>
        have hs : step decode dms s (.notify bytes) =
            { s with metricsLog := s.metricsLog ++ [m] } := by simp [step, hgc, hd]
        rw [hs]
        exact ⟨h1, h2, h3⟩
      | none =>
        have hs : step decode dms s (.notify bytes) = s := by simp [step, hgc, hd]
        rw [hs]
        exact ⟨h1, h2, h3⟩
    · have hs : step decode dms s (.notify bytes) = s := by simp [step, hgc]
      rw [hs]
      exact ⟨h1, h2, h3⟩

/-- The basic invariant holds along every run. -/
theorem runFrom_basicInv {M : Type} (decode : List Nat → Option M) (dms : Nat) :
    ∀ (evs : List BtEvent) (s : Sess M),
    s.pendingTimers.length ≤ 1 →
    (∀ t ∈ s.pendingTimers, t.id = s.timerVar) →
    (s.fullyConnected = true → s.listenerAttached = true) →
    (runFrom decode dms s evs).pendingTimers.length ≤ 1 ∧
    (∀ t ∈ (runFrom decode dms s evs).pendingTimers,
      t.id = (runFrom decode dms s evs).timerVar) ∧
    ((runFrom decode dms s evs).fullyConnected = true →
      (runFrom decode dms s evs).listenerAttached = true) := by
  intro evs
  induction evs with
  | nil => exact fun s h1 h2 h3 => ⟨h1, h2, h3⟩
  | cons e rest ih =>
    intro s h1 h2 h3
    obtain ⟨g1, g2, g3⟩ := step_basicInv decode dms s e h1 h2 h3
    exact ih (step decode dms s e) g1 g2 g3

/-- A torn-down session — no listener, no pending timer, no in-flight
reconnect, transport closed by an intentional `disconnect()` — is inert:
no event changes it (in particular no callback ever fires again). -/
theorem step_dead {M : Type} (decode : List Nat → Option M) (dms : Nat)
    (s : Sess M) (e : BtEvent)
    (hfc : s.fullyConnected = false) (hla : s.listenerAttached = false)
    (hpt : s.pendingTimers = []) (hts : s.tasks = [])
    (hgc : s.gattConnected = false) (hic : s.intentionallyClosed = true) :
    step decode dms s e = s := by
  obtain ⟨fc, la, gc, ic, pt, tv, ni, tk, rc, tc, ml⟩ := s
  simp only at hfc hla hpt hts hgc hic
  subst hfc hla hpt hts hgc hic
  cases e <;> simp [step, onGattDisconnected]

/-- A dead session stays dead along any further event sequence. -/
theorem runFrom_dead {M : Type} (decode : List Nat → Option M) (dms : Nat) :
    ∀ (evs : List BtEvent) (s : Sess M),
    s.fullyConnected = false → s.listenerAttached = false →
    s.pendingTimers = [] → s.tasks = [] →
    s.gattConnected = false → s.intentionallyClosed = true →
    runFrom decode dms s evs = s := by
  intro evs
  induction evs with
  | nil => intro s _ _ _ _ _ _; rfl
  | cons e rest ih =>
    intro s hfc hla hpt hts hgc hic
    show runFrom decode dms (step decode dms s e) rest = s
    rw [step_dead decode dms s e hfc hla hpt hts hgc hic]
    exact ih s hfc hla hpt hts hgc hic

/-- Single-step preservation of the terminal-failure invariant, under the
hypothesis that a disconnect signal is only delivered while no
silent-reconnect callback is in flight.  Conjuncts: the basic invariant,
`onDisconnect` fired at most once, the terminal state is quiescent once
it fired, an in-flight reconnect excludes a pending timer, and at most
one reconnect callback is in flight. -/
theorem step_quietInv {M : Type} (decode : List Nat → Option M) (dms : Nat)
    (s : Sess M) (e : BtEvent)
    (hq : e = .gattDrop → s.tasks = [])
    (h1 : s.pendingTimers.length ≤ 1)
    (h2 : ∀ t ∈ s.pendingTimers, t.id = s.timerVar)
    (h3 : s.fullyConnected = true → s.listenerAttached = true)
    (h4 : s.termCount ≤ 1)
    (h5 : s.termCount = 1 → s.fullyConnected = false ∧ s.pendingTimers = [] ∧ s.tasks = [])
    (h6 : s.tasks ≠ [] → s.pendingTimers = [])
    (h7 : s.tasks.length ≤ 1) :
    (step decode dms s e).pendingTimers.length ≤ 1 ∧
    (∀ t ∈ (step decode dms s e).pendingTimers,
      t.id = (step decode dms s e).timerVar) ∧
    ((step decode dms s e).fullyConnected = true →
      (step decode dms s e).listenerAttached = true) ∧
    (step decode dms s e).termCount ≤ 1 ∧
    ((step decode dms s e).termCount = 1 →
      (step decode dms s e).fullyConnected = false ∧
      (step decode dms s e).pendingTimers = [] ∧
      (step decode dms s e).tasks = []) ∧
    ((step decode dms s e).tasks ≠ [] → (step decode dms s e).pendingTimers = []) ∧
    (step decode dms s e).tasks.length ≤ 1 := by
  obtain ⟨g1, g2, g3⟩ := step_basicInv decode dms s e h1 h2 h3
  refine ⟨g1, g2, g3, ?_⟩
  clear g1 g2 g3
  cases e with
  | gattDrop =>
    have htk : s.tasks = [] := hq rfl
    by_cases hla : s.listenerAttached = true
    · by_cases hfc : s.fullyConnected = false
      · have hs : step decode dms s .gattDrop = { s with gattConnected := false } := by
          simp [step, onGattDisconnected, hla, hfc]
        rw [hs]
        exact ⟨h4, fun h => ⟨(h5 h).1, (h5 h).2.1, (h5 h).2.2⟩, h6, h7⟩
      · have hs : step decode dms s .gattDrop =
            { s with
              gattConnected := false,
              pendingTimers := [⟨s.nextId, dms⟩],
              timerVar := s.nextId,
              nextId := s.nextId + 1 } := by
          simp [step, onGattDisconnected, hla, hfc]
          exact h2
        rw [hs]
        refine ⟨h4, fun h => absurd ((h5 h).1) hfc, fun h => absurd htk h, by simp [htk]⟩
    · have hs : step decode dms s .gattDrop = { s with gattConnected := false } := by
        simp [step, hla]
      rw [hs]
      exact ⟨h4, fun h => ⟨(h5 h).1, (h5 h).2.1, (h5 h).2.2⟩, h6, h7⟩
  | gattUp =>
    by_cases hic : s.intentionallyClosed = true
    · have hs : step decode dms s .gattUp = s := by simp [step, hic]
      rw [hs]
      exact ⟨h4, h5, h6, h7⟩
    · have hs : step decode dms s .gattUp = { s with gattConnected := true } := by
        simp [step, hic]
      rw [hs]
      exact ⟨h4, fun h => ⟨(h5 h).1, (h5 h).2.1, (h5 h).2.2⟩, h6, h7⟩
  | timerFire id =>
    by_cases hany : s.pendingTimers.any (fun t => t.id = id) = true
    · have hne : s.pendingTimers ≠ [] := by
        intro hnil
        rw [hnil] at hany
        simp at hany
      have hid : id = s.timerVar := by
        obtain ⟨t, ht, hti⟩ := List.any_eq_true.mp hany
        rw [← h2 t ht]
        exact (of_decide_eq_true hti).symm
      have htask : s.tasks = [] := by
        by_contra htks
        exact hne (h6 htks)
      have hflt : s.pendingTimers.filter (fun t => t.id ≠ id) = [] := by
        rw [hid]
        exact filter_ne_of_all_eq s.pendingTimers s.timerVar h2
      have htc : s.termCount = 0 := by
        rcases Nat.lt_or_ge s.termCount 1 with h | h
        · omega
        · exact absurd (h5 (by omega)).2.1 hne
      by_cases hgc : s.gattConnected = true
      · have hs : step decode dms s (.timerFire id) =
            { s with pendingTimers := s.pendingTimers.filter (fun t => t.id ≠ id) } := by
          simp [step, hany, hgc]
        rw [hs]
        exact ⟨h4, fun h => absurd (htc ▸ h) (by omega), fun _ => hflt, h7⟩
      · have hs : step decode dms s (.timerFire id) =
            { s with
              pendingTimers := s.pendingTimers.filter (fun t => t.id ≠ id),
              reconCount := s.reconCount + 1,
              tasks := s.tasks ++ [3] } := by
          simp [step, hany, hgc]
        rw [hs]
        refine ⟨h4, fun h => absurd (htc ▸ h) (by omega), fun _ => hflt, by simp [htask]⟩
    · have hs : step decode dms s (.timerFire id) = s := by simp [step, hany]
      rw [hs]
      exact ⟨h4, h5, h6, h7⟩
  | cycleRun ok =>
    cases hts : s.tasks with
    | nil =>
      have hs : step decode dms s (.cycleRun ok) = s := by simp [step, hts]
      rw [hs]
      exact ⟨h4, h5, h6, h7⟩
    | cons r rest =>
      have hrest : rest = [] := by
        have := h7
        rw [hts] at this
        simpa using this
      have hpend : s.pendingTimers = [] := h6 (by rw [hts]; simp)
      have htc : s.termCount = 0 := by
        rcases Nat.lt_or_ge s.termCount 1 with h | h
        · omega
        · have := (h5 (by omega)).2.2
          rw [hts] at this
          simp at this
      by_cases hok : ok = true
      · have hs : step decode dms s (.cycleRun ok) =
            { s with tasks := rest, gattConnected := true } := by simp [step, hts, hok]
        rw [hs]
        exact ⟨h4, fun h => absurd (htc ▸ h) (by omega), fun h => absurd hrest h, by simp [hrest]⟩
      · by_cases hr : r ≤ 1
        · have hs : step decode dms s (.cycleRun ok) =
              { s with
                tasks := rest,
                fullyConnected := false,
                termCount := s.termCount + 1 } := by simp [step, hts, hok, hr]
          rw [hs]
          refine ⟨by show s.termCount + 1 ≤ 1; omega, fun _ => ⟨rfl, hpend, hrest⟩,
            fun h => absurd hrest h, by simp [hrest]⟩
        · have hs : step decode dms s (.cycleRun ok) =
              { s with tasks := (r - 1) :: rest } := by simp [step, hts, hok, hr]
          rw [hs]
          refine ⟨h4, fun h => absurd (htc ▸ h) (by omega), fun _ => hpend, by simp [hrest]⟩
  | callerDisconnect =>
    have hflt : s.pendingTimers.filter (fun t => t.id ≠ s.timerVar) = [] :=
      filter_ne_of_all_eq s.pendingTimers s.timerVar h2
    have hs : step decode dms s .callerDisconnect =
        { s with
          pendingTimers := s.pendingTimers.filter (fun t => t.id ≠ s.timerVar),
          fullyConnected := false,
          listenerAttached := false,
          gattConnected := false,
          intentionallyClosed := true } := by simp [step]
    rw [hs]
    exact ⟨h4, fun h => ⟨rfl, hflt, (h5 h).2.2⟩, fun _ => hflt, h7⟩
  | notify bytes =>
    by_cases hgc : s.gattConnected = true
    · cases hd : decode bytes with
      | some m =>
        have hs : step decode dms s (.notify bytes) =
            { s with metricsLog := s.metricsLog ++ [m] } := by simp [step, hgc, hd]
        rw [hs]
        exact ⟨h4, fun h => ⟨(h5 h).1, (h5 h).2.1, (h5 h).2.2⟩, h6, h7⟩
      | none =>
        have hs : step decode dms s (.notify bytes) = s := by simp [step, hgc, hd]
        rw [hs]
        exact ⟨h4, h5, h6, h7⟩
    · have hs : step decode dms s (.notify bytes) = s := by simp [step, hgc]
      rw [hs]
      exact ⟨h4, h5, h6, h7⟩

theorem quietTrace_cons {M : Type} (decode : List Nat → Option M) (dms : Nat)
    (s : Sess M) (e : BtEvent) (rest : List BtEvent) :
    quietTrace decode dms s (e :: rest) = true ↔
    ((e = .gattDrop → s.tasks = []) ∧
      quietTrace decode dms (step decode dms s e) rest = true) := by
  cases e <;> simp [quietTrace]

/-- The terminal-failure invariant holds along every quiet run. -/
theorem runFrom_quietInv {M : Type} (decode : List Nat → Option M) (dms : Nat) :
    ∀ (evs : List BtEvent) (s : Sess M),
    quietTrace decode dms s evs = true →
    s.pendingTimers.length ≤ 1 →
    (∀ t ∈ s.pendingTimers, t.id = s.timerVar) →
    (s.fullyConnected = true → s.listenerAttached = true) →
    s.termCount ≤ 1 →
    (s.termCount = 1 → s.fullyConnected = false ∧ s.pendingTimers = [] ∧ s.tasks = []) →
    (s.tasks ≠ [] → s.pendingTimers = []) →
    s.tasks.length ≤ 1 →
    (runFrom decode dms s evs).termCount ≤ 1 ∧
    ((runFrom decode dms s evs).termCount = 1 →
      (runFrom decode dms s evs).fullyConnected = false ∧
      (runFrom decode dms s evs).pendingTimers = [] ∧
      (runFrom decode dms s evs).tasks = []) := by
  intro evs
  induction evs with
  | nil => exact fun s _ _ _ _ h4 h5 _ _ => ⟨h4, h5⟩
  | cons e rest ih =>
    intro s hq h1 h2 h3 h4 h5 h6 h7
    rw [quietTrace_cons] at hq
    obtain ⟨g1, g2, g3, g4, g5, g6, g7⟩ :=
      step_quietInv decode dms s e hq.1 h1 h2 h3 h4 h5 h6 h7
    exact ih (step decode dms s e) hq.2 g1 g2 g3 g4 g5 g6 g7

/-- A disconnect signal on a fully-connected session only cancels the
previous debounce timeout and arms a fresh one — nothing else changes. -/
theorem step_gattDrop_arm {M : Type} (decode : List Nat → Option M) (dms : Nat)
    (s : Sess M)
    (hfc : s.fullyConnected = true) (hla : s.listenerAttached = true)
    (h2 : ∀ t ∈ s.pendingTimers, t.id = s.timerVar) :
    step decode dms s .gattDrop =
      { s with
        gattConnected := false,
        pendingTimers := [⟨s.nextId, dms⟩],
        timerVar := s.nextId,
        nextId := s.nextId + 1 } := by
  have hnf : ¬ s.fullyConnected = false := by simp [hfc]
  simp [step, onGattDisconnected, hla, hnf]
  exact h2

/-- A debounce timeout that fires while the transport is connected
early-returns: the session neither enters Reconnecting nor changes any
closure state other than forgetting the fired timeout. -/
theorem step_timerFire_connected {M : Type} (decode : List Nat → Option M) (dms : Nat)
    (s : Sess M) (tid : Nat) (hgc : s.gattConnected = true) :
    (step decode dms s (.timerFire tid)).fullyConnected = s.fullyConnected ∧
    (step decode dms s (.timerFire tid)).reconCount = s.reconCount ∧
    (step decode dms s (.timerFire tid)).termCount = s.termCount ∧
    (step decode dms s (.timerFire tid)).tasks = s.tasks := by
  by_cases hany : s.pendingTimers.any (fun t => t.id = tid) = true
  · have hs : step decode dms s (.timerFire tid) =
        { s with pendingTimers := s.pendingTimers.filter (fun t => t.id ≠ tid) } := by
      simp [step, hany, hgc]
    rw [hs]
    exact ⟨rfl, rfl, rfl, rfl⟩
  · have hs : step decode dms s (.timerFire tid) = s := by simp [step, hany]
    rw [hs]
    exact ⟨rfl, rfl, rfl, rfl⟩

/-! ## Claim theorems: connection state machine -/

/-- C3: For every session in the Connected state, a transport disconnect
signal does not leave Connected immediately: it arms a single-shot
5-second timer (3 seconds for the heart-rate session), cancelling any
previously pending one; if the transport reports connected again before
the timer fires, the session stays Connected and `onReconnecting` never
fires; and at most one debounce timer is pending at any time. -/
theorem claimC3_debounce :
    (∀ evs, (runBike evs).fullyConnected = true →
      (stepBike (runBike evs) .gattDrop).fullyConnected = true ∧
      (stepBike (runBike evs) .gattDrop).reconCount = (runBike evs).reconCount ∧
      (stepBike (runBike evs) .gattDrop).termCount = (runBike evs).termCount ∧
      (stepBike (runBike evs) .gattDrop).pendingTimers = [⟨(runBike evs).nextId, 5000⟩]) ∧
    (∀ evs, (runHR evs).fullyConnected = true →
      (stepHR (runHR evs) .gattDrop).pendingTimers = [⟨(runHR evs).nextId, 3000⟩]) ∧
    (∀ evs tid, (runBike evs).gattConnected = true →
      (stepBike (runBike evs) (.timerFire tid)).fullyConnected = (runBike evs).fullyConnected ∧
      (stepBike (runBike evs) (.timerFire tid)).reconCount = (runBike evs).reconCount ∧
      (stepBike (runBike evs) (.timerFire tid)).tasks = (runBike evs).tasks) ∧
    (∀ evs, (runBike evs).pendingTimers.length ≤ 1) := by
  refine ⟨?_, ?_, ?_, ?_⟩
  · intro evs hfc
    have inv := runFrom_basicInv parseIndoorBikeData 5000 evs (initSess BikeData)
      (by simp [initSess]) (by simp [initSess]) (by simp [initSess])
    have hla : (runBike evs).listenerAttached = true := inv.2.2 hfc
    have h2 : ∀ t ∈ (runBike evs).pendingTimers, t.id = (runBike evs).timerVar := inv.2.1
    have hs : stepBike (runBike evs) .gattDrop =
        { runBike evs with
          gattConnected := false,
          pendingTimers := [⟨(runBike evs).nextId, 5000⟩],
          timerVar := (runBike evs).nextId,
          nextId := (runBike evs).nextId + 1 } :=
      step_gattDrop_arm parseIndoorBikeData 5000 (runBike evs) hfc hla h2
    exact ⟨by rw [hs]; exact hfc, by rw [hs], by rw [hs], by rw [hs]⟩
  · intro evs hfc
    have inv := runFrom_basicInv parseHRMeasurement 3000 evs (initSess Nat)
      (by simp [initSess]) (by simp [initSess]) (by simp [initSess])
    have hla : (runHR evs).listenerAttached = true := inv.2.2 hfc
    have h2 : ∀ t ∈ (runHR evs).pendingTimers, t.id = (runHR evs).timerVar := inv.2.1
    have hs : stepHR (runHR evs) .gattDrop =
        { runHR evs with
          gattConnected := false,
          pendingTimers := [⟨(runHR evs).nextId, 3000⟩],
          timerVar := (runHR evs).nextId,
          nextId := (runHR evs).nextId + 1 } :=
      step_gattDrop_arm parseHRMeasurement 3000 (runHR evs) hfc hla h2
    rw [hs]
  · intro evs tid hgc
    have h := step_timerFire_connected parseIndoorBikeData 5000 (runBike evs) tid hgc
    exact ⟨h.1, h.2.1, h.2.2.2⟩
  · intro evs
    exact (runFrom_basicInv parseIndoorBikeData 5000 evs (initSess BikeData)
      (by simp [initSess]) (by simp [initSess]) (by simp [initSess])).1

/-- Witness for C3: the freshly connected machine session, hit by one
disconnect signal; and the connected-again timer firing at the armed id. -/
theorem claimC3_witness :
    (runBike []).fullyConnected = true ∧
    ((stepBike (runBike []) .gattDrop).fullyConnected = true ∧
      (stepBike (runBike []) .gattDrop).reconCount = (runBike []).reconCount ∧
      (stepBike (runBike []) .gattDrop).termCount = (runBike []).termCount ∧
      (stepBike (runBike []) .gattDrop).pendingTimers = [⟨(runBike []).nextId, 5000⟩]) ∧
    (runHR []).fullyConnected = true ∧
    (stepHR (runHR []) .gattDrop).pendingTimers = [⟨(runHR []).nextId, 3000⟩] ∧
    (runBike []).gattConnected = true ∧
    ((stepBike (runBike []) (.timerFire 0)).fullyConnected = (runBike []).fullyConnected ∧
      (stepBike (runBike []) (.timerFire 0)).reconCount = (runBike []).reconCount ∧
      (stepBike (runBike []) (.timerFire 0)).tasks = (runBike []).tasks) ∧
    (runBike [.gattDrop, .gattDrop]).pendingTimers.length ≤ 1 :=
  ⟨by decide, claimC3_debounce.1 [] (by decide), by decide,
    claimC3_debounce.2.1 [] (by decide), by decide,
    claimC3_debounce.2.2.1 [] 0 (by decide),
    claimC3_debounce.2.2.2 [.gattDrop, .gattDrop]⟩

/-- Counterexample to C1 as stated: a disconnect signal delivered while
the silent-reconnect cycles of a fired debounce timer are still in
flight (`fullyConnected` is still `true` at that moment, so
`onGattDisconnected` arms a second debounce timeout) leads to a second
round of reconnect attempts after the first terminal failure, and the
terminal-failure callback (`onDisconnect`) fires twice in one session. -/
theorem claimC1_counterexample :
    (runBike [.gattDrop, .timerFire 1, .gattDrop, .cycleRun false, .cycleRun false,
      .cycleRun false]).termCount = 1 ∧
    (runBike [.gattDrop, .timerFire 1, .gattDrop, .cycleRun false, .cycleRun false,
      .cycleRun false]).reconCount = 1 ∧
    (runBike [.gattDrop, .timerFire 1, .gattDrop, .cycleRun false, .cycleRun false,
      .cycleRun false, .timerFire 2, .cycleRun false, .cycleRun false,
      .cycleRun false]).reconCount = 2 ∧
    (runBike [.gattDrop, .timerFire 1, .gattDrop, .cycleRun false, .cycleRun false,
      .cycleRun false, .timerFire 2, .cycleRun false, .cycleRun false,
      .cycleRun false]).termCount = 2 :=
  ⟨rfl, rfl, rfl, rfl⟩

/-- C1 (amended): if the debounce timer fires while the transport is
disconnected and all 3 silent-reconnect cycles fail, the session sets
`fullyConnected := false` (Disconnected) and fires the terminal-failure
callback, after which no pending timer or in-flight reconnect remains;
and **provided no disconnect signal is delivered while silent-reconnect
cycles are in flight**, the terminal-failure callback fires at most once
per session.  (The proviso is forced by `claimC1_counterexample`: the
timer callback never re-checks `fullyConnected`, so a signal arriving
during the reconnect cycles arms a second timer and can replay the whole
reconnect-and-fail sequence.) -/
theorem claimC1_amended :
    (∀ evs, quietTrace parseIndoorBikeData 5000 (initSess BikeData) evs = true →
      (runBike evs).termCount ≤ 1 ∧
      ((runBike evs).termCount = 1 → (runBike evs).fullyConnected = false ∧
        (runBike evs).pendingTimers = [] ∧ (runBike evs).tasks = [])) ∧
    runBike [.gattDrop, .timerFire 1, .cycleRun false, .cycleRun false, .cycleRun false] =
      { fullyConnected := false,
        listenerAttached := true,
        gattConnected := false,
        intentionallyClosed := false,
        pendingTimers := [],
        timerVar := 1,
        nextId := 2,
        tasks := [],
        reconCount := 1,
        termCount := 1,
        metricsLog := [] } := by
  refine ⟨?_, rfl⟩
  intro evs hq
  exact runFrom_quietInv parseIndoorBikeData 5000 evs (initSess BikeData) hq
    (by simp [initSess]) (by simp [initSess]) (by simp [initSess]) (by simp [initSess])
    (by simp [initSess]) (by simp [initSess]) (by simp [initSess])

/-- Witness for C1 (amended), at the canonical exhaustion trace: one
disconnect signal, the timer fires, 3 reconnect cycles fail. -/
theorem claimC1_witness :
    quietTrace parseIndoorBikeData 5000 (initSess BikeData)
      [.gattDrop, .timerFire 1, .cycleRun false, .cycleRun false, .cycleRun false] = true ∧
    ((runBike [.gattDrop, .timerFire 1, .cycleRun false, .cycleRun false,
        .cycleRun false]).termCount ≤ 1 ∧
      ((runBike [.gattDrop, .timerFire 1, .cycleRun false, .cycleRun false,
          .cycleRun false]).termCount = 1 →
        (runBike [.gattDrop, .timerFire 1, .cycleRun false, .cycleRun false,
          .cycleRun false]).fullyConnected = false ∧
        (runBike [.gattDrop, .timerFire 1, .cycleRun false, .cycleRun false,
          .cycleRun false]).pendingTimers = [] ∧
        (runBike [.gattDrop, .timerFire 1, .cycleRun false, .cycleRun false,
          .cycleRun false]).tasks = [])) :=
  ⟨by decide,
    claimC1_amended.1 [.gattDrop, .timerFire 1, .cycleRun false, .cycleRun false,
      .cycleRun false] (by decide)⟩

/-- Counterexample to C2 as stated: if `disconnect()` is called while the
silent-reconnect cycles of an already-fired debounce timer are in flight,
the in-flight `attemptSilentReconnect` continues (nothing cancels it) and
its final failure still runs `onDisconnect?.()` — the terminal-failure
callback fires after the caller-initiated `disconnect()`, and after a
further disconnect signal on the detached device. -/
theorem claimC2_counterexample :
    (runBike [.gattDrop, .timerFire 1, .cycleRun false, .callerDisconnect]).termCount = 0 ∧
    (runBike [.gattDrop, .timerFire 1, .cycleRun false, .callerDisconnect, .gattDrop,
      .cycleRun false, .cycleRun false]).termCount = 1 :=
  ⟨rfl, rfl⟩

/-- C2 (amended): `disconnect()` synchronously cancels the pending
debounce timer, detaches the disconnect listener, closes the transport,
and itself fires no callback; and **provided no silent-reconnect cycle is
in flight at that moment**, no callback of the session (metric,
terminal-failure, or reconnecting) fires afterward — in particular
subsequent disconnect signals on the detached device produce nothing.
(The proviso is forced by `claimC2_counterexample`: an in-flight
`attemptSilentReconnect` is not cancelled by `disconnect()` and may still
fire the terminal-failure callback.) -/
theorem claimC2_amended :
    ∀ evs,
      (stepBike (runBike evs) .callerDisconnect).pendingTimers = [] ∧
      (stepBike (runBike evs) .callerDisconnect).listenerAttached = false ∧
      (stepBike (runBike evs) .callerDisconnect).gattConnected = false ∧
      (stepBike (runBike evs) .callerDisconnect).fullyConnected = false ∧
      (stepBike (runBike evs) .callerDisconnect).termCount = (runBike evs).termCount ∧
      (stepBike (runBike evs) .callerDisconnect).reconCount = (runBike evs).reconCount ∧
      (stepBike (runBike evs) .callerDisconnect).metricsLog = (runBike evs).metricsLog ∧
      ((runBike evs).tasks = [] → ∀ evs2,
        runBikeFrom (stepBike (runBike evs) .callerDisconnect) evs2 =
          stepBike (runBike evs) .callerDisconnect) := by
  intro evs
  have inv := runFrom_basicInv parseIndoorBikeData 5000 evs (initSess BikeData)
    (by simp [initSess]) (by simp [initSess]) (by simp [initSess])
  have hflt : (runBike evs).pendingTimers.filter
      (fun t => t.id ≠ (runBike evs).timerVar) = [] :=
    filter_ne_of_all_eq (runBike evs).pendingTimers (runBike evs).timerVar inv.2.1
  have hs : stepBike (runBike evs) .callerDisconnect =
      { runBike evs with
        pendingTimers := (runBike evs).pendingTimers.filter
          (fun t => t.id ≠ (runBike evs).timerVar),
        fullyConnected := false,
        listenerAttached := false,
        gattConnected := false,
        intentionallyClosed := true } := by simp [stepBike, step]
  refine ⟨by rw [hs]; exact hflt, by rw [hs], by rw [hs], by rw [hs], by rw [hs],
    by rw [hs], by rw [hs], ?_⟩
  intro htk evs2
  have htk' : (stepBike (runBike evs) .callerDisconnect).tasks = [] := by rw [hs]; exact htk
  have hpt' : (stepBike (runBike evs) .callerDisconnect).pendingTimers = [] := by
    rw [hs]; exact hflt
  exact runFrom_dead parseIndoorBikeData 5000 evs2 (stepBike (runBike evs) .callerDisconnect)
    (by rw [hs]) (by rw [hs]) hpt' htk' (by rw [hs]) (by rw [hs])

/-- Witness for C2 (amended): a session with an armed debounce timer and
no in-flight reconnect; after `disconnect()`, a further disconnect
signal, a timer fire and a reconnect-cycle tick all leave the dead
session untouched. -/
theorem claimC2_witness :
    (runBike [.gattDrop]).tasks = [] ∧
    ((stepBike (runBike [.gattDrop]) .callerDisconnect).pendingTimers = [] ∧
      (stepBike (runBike [.gattDrop]) .callerDisconnect).listenerAttached = false ∧
      (stepBike (runBike [.gattDrop]) .callerDisconnect).gattConnected = false ∧
      (stepBike (runBike [.gattDrop]) .callerDisconnect).fullyConnected = false ∧
      (stepBike (runBike [.gattDrop]) .callerDisconnect).termCount =
        (runBike [.gattDrop]).termCount ∧
      (stepBike (runBike [.gattDrop]) .callerDisconnect).reconCount =
        (runBike [.gattDrop]).reconCount ∧
      (stepBike (runBike [.gattDrop]) .callerDisconnect).metricsLog =
        (runBike [.gattDrop]).metricsLog) ∧
    runBikeFrom (stepBike (runBike [.gattDrop]) .callerDisconnect)
        [.gattDrop, .timerFire 1, .cycleRun false] =
      stepBike (runBike [.gattDrop]) .callerDisconnect := by
  have h := claimC2_amended [.gattDrop]
  exact ⟨by decide, ⟨h.1, h.2.1, h.2.2.1, h.2.2.2.1, h.2.2.2.2.1, h.2.2.2.2.2.1,
    h.2.2.2.2.2.2.1⟩, h.2.2.2.2.2.2.2 (by decide) [.gattDrop, .timerFire 1, .cycleRun false]⟩

/-- C7: a notification whose buffer is truncated so that decoding would
read past the available length makes the decoder fail (`none`, the
embedded `DecodeError`); `handleNotification` catches it, `onMetrics` is
not invoked for that frame, and the session state is completely
unchanged — a single bad notification never terminates or otherwise
affects the connection.  A buffer shorter than the 2-byte flags word
always fails, as does a 2-byte bike frame whose flags announce a cadence
field. -/
theorem claimC7_bad_frame_dropped :
    (∀ (s : Sess BikeData) bytes, parseIndoorBikeData bytes = none →
      stepBike s (.notify bytes) = s) ∧
    (∀ b : List Nat, b.length < 2 → parseIndoorBikeData b = none) ∧
    parseIndoorBikeData [68, 0] = none := by
  refine ⟨?_, ?_, by decide⟩
  · intro s bytes hd
    by_cases hgc : s.gattConnected = true
    · simp [stepBike, step, hgc, hd]
    · simp [stepBike, step, hgc]
  · intro b hb
    match b, hb with
    | [], _ => rfl
    | [a], _ => rfl
    | a :: c :: rest, hb =>
      simp only [List.length_cons] at hb
      omega

/-- Witness for C7: the truncated bike frame `[0x44, 0x00]` (flags
announce a cadence field at offset 4, buffer ends at 2) is dropped and
the freshly connected session is untouched. -/
theorem claimC7_witness :
    parseIndoorBikeData [68, 0] = none ∧
    stepBike (initSess BikeData) (.notify [68, 0]) = initSess BikeData ∧
    [(0 : Nat)].length < 2 ∧ parseIndoorBikeData [0] = none :=
  ⟨by decide, claimC7_bad_frame_dropped.1 (initSess BikeData) [68, 0] (by decide),
    by decide, claimC7_bad_frame_dropped.2.1 [0] (by decide)⟩

/-! ## Connect-phase lemmas -/

/-- The retry loop on a prefix of failures followed by a success: returns
exactly one handle after `errs.length + 1` attempts, sleeps 1000 ms after
each failure, keeps the listener attached, throws nothing. -/
theorem connectLoop_first_ok :
    ∀ (errs rest : List AttemptResult), (∀ a ∈ errs, ∃ d, a = AttemptResult.err d) →
    ∀ (lastErr : Option Nat) (made : Nat) (waits : List Nat),
    connectLoop (errs ++ .ok :: rest) lastErr made waits =
      { handle := some (made + errs.length + 1),
        thrown := none,
        listenerOn := true,
        waits := waits ++ List.replicate errs.length 1000,
        attemptsMade := made + errs.length + 1 } := by
  intro errs
  induction errs with
  | nil =>
    intro rest _ lastErr made waits
    simp [connectLoop]
  | cons a errs ih =>
    intro rest hall lastErr made waits
    obtain ⟨d, hd⟩ := hall a (List.mem_cons_self a errs)
    subst hd
    show connectLoop (.err d :: (errs ++ .ok :: rest)) lastErr made waits = _
    rw [connectLoop]
    rw [if_neg (by simp)]
    rw [ih rest (fun x hx => hall x (List.mem_cons_of_mem _ hx)) (some d) (made + 1)
      (waits ++ [1000])]
    simp [List.replicate_succ]
    omega

/-- The retry loop when every attempt fails: no handle, the listener is
removed, the error of the last attempt is rethrown, 1000 ms sleeps
between (but not after) the attempts. -/
theorem connectLoop_all_err :
    ∀ (errs : List AttemptResult) (c : Nat), (∀ a ∈ errs, ∃ d, a = AttemptResult.err d) →
    ∀ (lastErr : Option Nat) (made : Nat) (waits : List Nat),
    connectLoop (errs ++ [.err c]) lastErr made waits =
      { handle := none,
        thrown := some c,
        listenerOn := false,
        waits := waits ++ List.replicate errs.length 1000,
        attemptsMade := made + errs.length + 1 } := by
  intro errs
  induction errs with
  | nil =>
    intro c _ lastErr made waits
    show connectLoop [.err c] lastErr made waits = _
    rw [connectLoop]
    rw [if_pos rfl]
    simp [connectLoop]
  | cons a errs ih =>
    intro c hall lastErr made waits
    obtain ⟨d, hd⟩ := hall a (List.mem_cons_self a errs)
    subst hd
    show connectLoop (.err d :: (errs ++ [.err c])) lastErr made waits = _
    rw [connectLoop]
    rw [if_neg (by simp)]
    rw [ih c (fun x hx => hall x (List.mem_cons_of_mem _ hx)) (some d) (made + 1)
      (waits ++ [1000])]
    simp [List.replicate_succ]
    omega

theorem connectWithDevice_one_attempt (machineType : String)
    (outcomes : Nat → AttemptResult) :
    (connectWithDevice machineType ⟨1, 1000⟩ outcomes).result.attemptsMade = 1 ∧
    (connectWithDevice machineType ⟨1, 1000⟩ outcomes).opts.stabilizationDelay = 1000 ∧
    ((connectWithDevice machineType ⟨1, 1000⟩ outcomes).result.handle ≠ none ↔
      outcomes 0 = .ok) := by
  cases h : outcomes 0 with
  | ok => refine ⟨?_, rfl, ?_⟩ <;> simp [connectWithDevice, connectLoop, List.range_succ, h]
  | err c => refine ⟨?_, rfl, ?_⟩ <;>
      simp [connectWithDevice, connectLoop, List.range_succ, h]

theorem tryDevices_first_ok (machineType : String) (outcomes : Nat → Nat → AttemptResult) :
    ∀ (ds1 : List Nat) (d : Nat) (ds2 : List Nat),
    (∀ d' ∈ ds1, ∃ c, outcomes d' 0 = AttemptResult.err c) →
    outcomes d 0 = .ok →
    tryDevices machineType outcomes (ds1 ++ d :: ds2) =
      .ok (d, connectWithDevice machineType ⟨1, 1000⟩ (outcomes d)) := by
  intro ds1
  induction ds1 with
  | nil =>
    intro d ds2 _ hok
    show tryDevices machineType outcomes (d :: ds2) = _
    rw [tryDevices]
    have hh : (connectWithDevice machineType ⟨1, 1000⟩ (outcomes d)).result.handle =
        some 1 := by
      simp [connectWithDevice, connectLoop, List.range_succ, hok]
    rw [hh]
  | cons d' ds1 ih =>
    intro d ds2 hall hok
    obtain ⟨c, hc⟩ := hall d' (List.mem_cons_self d' ds1)
    show tryDevices machineType outcomes (d' :: (ds1 ++ d :: ds2)) = _
    rw [tryDevices]
    have hh : (connectWithDevice machineType ⟨1, 1000⟩ (outcomes d')).result.handle =
        none := by
      simp [connectWithDevice, connectLoop, List.range_succ, hc]
    rw [hh]
    exact ih d ds2 (fun x hx => hall x (List.mem_cons_of_mem _ hx)) hok

theorem tryDevices_all_err (machineType : String) (outcomes : Nat → Nat → AttemptResult) :
    ∀ (ds : List Nat), (∀ d ∈ ds, ∃ c, outcomes d 0 = AttemptResult.err c) →
    tryDevices machineType outcomes ds = .error errAllCandidatesFailed := by
  intro ds
  induction ds with
  | nil => intro _; rfl
  | cons d ds ih =>
    intro hall
    obtain ⟨c, hc⟩ := hall d (List.mem_cons_self d ds)
    rw [tryDevices]
    have hh : (connectWithDevice machineType ⟨1, 1000⟩ (outcomes d)).result.handle =
        none := by
      simp [connectWithDevice, connectLoop, List.range_succ, hc]
    rw [hh]
    exact ih (fun x hx => hall x (List.mem_cons_of_mem _ hx))

/-! ## Claim theorems: connect phase and facade -/

/-- C4: For every connect phase of `_connectWithDevice` with attempt
ceiling N (default 3): the whole connect sequence is retried per attempt
with a 1-second wait between attempts; if some attempt among the first N
succeeds the caller receives exactly one resolved handle (after the first
success, no further attempts run); if all N attempts fail, no handle is
returned, the disconnect listener added at the start is removed, and the
error of the last attempt is thrown. -/
theorem claimC4_connect_retry :
    defaultConnectOpts.maxAttempts = 3 ∧
    (∀ machineType outcomes,
      (connectWithDevice machineType defaultConnectOpts outcomes).result =
        connectLoop [outcomes 0, outcomes 1, outcomes 2] none 0 []) ∧
    (∀ errs rest, (∀ a ∈ errs, ∃ d, a = AttemptResult.err d) →
      connectLoop (errs ++ .ok :: rest) none 0 [] =
        { handle := some (errs.length + 1),
          thrown := none,
          listenerOn := true,
          waits := List.replicate errs.length 1000,
          attemptsMade := errs.length + 1 }) ∧
    (∀ errs c, (∀ a ∈ errs, ∃ d, a = AttemptResult.err d) →
      connectLoop (errs ++ [.err c]) none 0 [] =
        { handle := none,
          thrown := some c,
          listenerOn := false,
          waits := List.replicate errs.length 1000,
          attemptsMade := errs.length + 1 }) := by
  refine ⟨rfl, fun machineType outcomes => rfl, ?_, ?_⟩
  · intro errs rest hall
    rw [connectLoop_first_ok errs rest hall none 0 []]
    simp
  · intro errs c hall
    rw [connectLoop_all_err errs c hall none 0 []]
    simp

/-- Witness for C4: first two attempts fail, the third succeeds — one
handle after 3 attempts, two 1-second waits; and all three fail — no
handle, listener removed, error 9 (the last) rethrown. -/
theorem claimC4_witness :
    (∀ a ∈ [AttemptResult.err 7, AttemptResult.err 8], ∃ d, a = AttemptResult.err d) ∧
    connectLoop ([AttemptResult.err 7, AttemptResult.err 8] ++ .ok :: []) none 0 [] =
      { handle := some 3,
        thrown := none,
        listenerOn := true,
        waits := List.replicate 2 1000,
        attemptsMade := 3 } ∧
    connectLoop ([AttemptResult.err 7, AttemptResult.err 8] ++ [.err 9]) none 0 [] =
      { handle := none,
        thrown := some 9,
        listenerOn := false,
        waits := List.replicate 2 1000,
        attemptsMade := 3 } :=
  ⟨by intro a ha; fin_cases ha <;> exact ⟨_, rfl⟩,
    claimC4_connect_retry.2.2.1 [AttemptResult.err 7, AttemptResult.err 8] []
      (by intro a ha; fin_cases ha <;> exact ⟨_, rfl⟩),
    claimC4_connect_retry.2.2.2 [AttemptResult.err 7, AttemptResult.err 8] 9
      (by intro a ha; fin_cases ha <;> exact ⟨_, rfl⟩)⟩

/-- C9: `reconnectToMachine` fails fast when `getDevices` is unavailable;
fails immediately on an empty recalled list; otherwise tries each
previously authorised device in list order with exactly one connect
attempt and a 1000 ms stabilisation delay per device, returns the handle
of the first device whose connect sequence succeeds, and throws only
after every candidate failed its single attempt. -/
theorem claimC9_reconnect :
    (∀ devices machineType outcomes,
      reconnectToMachine false devices machineType outcomes =
        .error errGetDevicesUnsupported) ∧
    (∀ machineType outcomes,
      reconnectToMachine true [] machineType outcomes = .error errNoAuthorizedDevices) ∧
    (∀ machineType outcomes,
      ∀ (ds1 : List Nat) (d : Nat) (ds2 : List Nat),
      (∀ d' ∈ ds1, ∃ c, outcomes d' 0 = AttemptResult.err c) →
      outcomes d 0 = .ok →
      reconnectToMachine true (ds1 ++ d :: ds2) machineType outcomes =
        .ok (d, connectWithDevice machineType ⟨1, 1000⟩ (outcomes d))) ∧
    (∀ machineType outcomes (devices : List Nat), devices ≠ [] →
      (∀ d ∈ devices, ∃ c, outcomes d 0 = AttemptResult.err c) →
      reconnectToMachine true devices machineType outcomes =
        .error errAllCandidatesFailed) ∧
    (∀ machineType outcomes,
      (connectWithDevice machineType ⟨1, 1000⟩ outcomes).result.attemptsMade = 1 ∧
      (connectWithDevice machineType ⟨1, 1000⟩ outcomes).opts.stabilizationDelay = 1000) := by
  refine ⟨fun _ _ _ => rfl, fun _ _ => rfl, ?_, ?_, ?_⟩
  · intro machineType outcomes ds1 d ds2 hall hok
    have hne : ds1 ++ d :: ds2 ≠ [] := by simp
    show reconnectToMachine true (ds1 ++ d :: ds2) machineType outcomes = _
    rw [reconnectToMachine]
    rw [if_neg (by simp), if_neg hne]
    exact tryDevices_first_ok machineType outcomes ds1 d ds2 hall hok
  · intro machineType outcomes devices hne hall
    rw [reconnectToMachine]
    rw [if_neg (by simp), if_neg hne]
    exact tryDevices_all_err machineType outcomes devices hall
  · intro machineType outcomes
    exact ⟨(connectWithDevice_one_attempt machineType outcomes).1,
      (connectWithDevice_one_attempt machineType outcomes).2.1⟩

/-- Witness for C9: device 5 fails its single attempt, device 6 succeeds;
and a two-device list where both fail. -/
theorem claimC9_witness :
    ((fun d _ => if d = 6 then AttemptResult.ok else AttemptResult.err d) 6 0 =
      AttemptResult.ok) ∧
    (∀ d' ∈ [5], ∃ c,
      (fun d _ => if d = 6 then AttemptResult.ok else AttemptResult.err d) d' 0 =
        AttemptResult.err c) ∧
    reconnectToMachine true ([5] ++ 6 :: []) "echo_bike"
        (fun d _ => if d = 6 then AttemptResult.ok else AttemptResult.err d) =
      .ok (6, connectWithDevice "echo_bike" ⟨1, 1000⟩
        ((fun d _ => if d = 6 then AttemptResult.ok else AttemptResult.err d) 6)) ∧
    reconnectToMachine true [5, 7] "echo_bike" (fun d _ => AttemptResult.err d) =
      .error errAllCandidatesFailed :=
  ⟨by decide, by intro a ha; fin_cases ha; exact ⟨_, rfl⟩,
    claimC9_reconnect.2.2.1 "echo_bike"
      (fun d _ => if d = 6 then AttemptResult.ok else AttemptResult.err d) [5] 6 []
      (by intro a ha; fin_cases ha; exact ⟨_, rfl⟩) (by decide),
    claimC9_reconnect.2.2.2.1 "echo_bike" (fun d _ => AttemptResult.err d) [5, 7]
      (by decide) (by intro a ha; fin_cases ha <;> exact ⟨_, rfl⟩)⟩

/-- C10: for every machineType value other than "ski_erg" — including
"hr_monitor", the empty string, or any unknown string —
`_connectWithDevice` silently selects the Indoor Bike Data
characteristic (0x2AD2) and the indoor-bike decoder; the machine type is
never validated or rejected (the selection is total over all strings). -/
theorem claimC10_machine_type_fallback :
    (∀ machineType : String, machineType ≠ "ski_erg" →
      charUuidFor machineType = 0x2ad2 ∧ decoderFor machineType = .indoorBike) ∧
    (∀ machineType opts outcomes,
      (connectWithDevice machineType opts outcomes).charUuid = charUuidFor machineType ∧
      (connectWithDevice machineType opts outcomes).decoder = decoderFor machineType) ∧
    charUuidFor "ski_erg" = 0x2ad1 ∧ decoderFor "ski_erg" = .rowingMachine := by
  refine ⟨?_, fun _ _ _ => ⟨rfl, rfl⟩, rfl, rfl⟩
  intro machineType h
  constructor
  · rw [charUuidFor, if_neg h]
  · rw [decoderFor, if_neg h]

/-- Witness for C10 at the concrete machine types "hr_monitor" and "". -/
theorem claimC10_witness :
    ("hr_monitor" ≠ "ski_erg") ∧
    (charUuidFor "hr_monitor" = 0x2ad2 ∧ decoderFor "hr_monitor" = .indoorBike) ∧
    ("" ≠ "ski_erg") ∧
    (charUuidFor "" = 0x2ad2 ∧ decoderFor "" = .indoorBike) :=
  ⟨by decide, claimC10_machine_type_fallback.1 "hr_monitor" (by decide),
    by decide, claimC10_machine_type_fallback.1 "" (by decide)⟩
